import Mathlib

/-!
Shallow embedding of the leftwm-core window-handler policy
(`src/leftwm-core/src/handlers/window_handler/`).

The handler files under `src/` are translated directly.  The entity types
(`Window`, `Workspace`, `Xyhw`, the focus manager, the shared `State`) and a
few helpers (`vec_extract`, `relative_find`, `sort_windows`, `focus_window`,
`update_static`) live outside `src/`; those are modelled from the spec and
each such definition carries a doc comment saying so.

Machine integers (`i32`) are modelled as `Int`; Rust's `/` truncates toward
zero, hence `Int.tdiv` in every modelled division.

The repository contains two generations of the create handler:
`window_create_handler.rs` (wired in `mod.rs`) and the orphaned `create.rs`.
Both are embedded; `_wired` control flow is the default and the `create.rs`
shape is suffixed `_legacy` / `_guarded`.
-/

/-- Rectangle value (§2 Geometry value). Coordinates and sizes are `i32`. -/
structure Xyhw where
  x : Int
  y : Int
  w : Int
  h : Int
deriving Repr, DecidableEq

/-- Modelled from the spec: `Xyhw::contains_point` (containment query of the
geometry value, defined outside `src/`): the closed rectangle contains the
point. -/
def Xyhw.contains_point (r : Xyhw) (px py : Int) : Bool :=
  r.x ≤ px && px ≤ r.x + r.w && r.y ≤ py && py ≤ r.y + r.h

/-- Modelled from the spec: `Xyhw::contains_xyhw` — full containment of
another rectangle (both opposite corners inside). -/
def Xyhw.contains_xyhw (r : Xyhw) (o : Xyhw) : Bool :=
  r.contains_point o.x o.y && r.contains_point (o.x + o.w) (o.y + o.h)

/-- Modelled from the spec: `Xyhw::center` — the center point of the
rectangle (truncating division, as in Rust). -/
def Xyhw.center (r : Xyhw) : Int × Int :=
  (r.x + Int.tdiv r.w 2, r.y + Int.tdiv r.h 2)

/-- Modelled from the spec: `center_halfed` — a half-sized rectangle centered
inside this one (§4.4 fallback placement). -/
def Xyhw.center_halfed (r : Xyhw) : Xyhw :=
  { x := r.x + Int.tdiv r.w 4
    y := r.y + Int.tdiv r.h 4
    w := Int.tdiv r.w 2
    h := Int.tdiv r.h 2 }

/-- Modelled from the spec: `Xyhw::center_relative` — recenter this rectangle
relative to `outer`, honoring the border width (§4.4). -/
def Xyhw.center_relative (r : Xyhw) (outer : Xyhw) (border : Int) : Xyhw :=
  { r with
    x := outer.x + Int.tdiv (outer.w - r.w) 2 - border
    y := outer.y + Int.tdiv (outer.h - r.h) 2 - border }

/-- Componentwise addition, used to resolve a floating offset against the
tiled `normal` frame. -/
def Xyhw.add (a b : Xyhw) : Xyhw :=
  ⟨a.x + b.x, a.y + b.y, a.w + b.w, a.h + b.h⟩

/-- Componentwise subtraction, used to store an exact floating rectangle as
an offset from the tiled `normal` frame. -/
def Xyhw.sub (a b : Xyhw) : Xyhw :=
  ⟨a.x - b.x, a.y - b.y, a.w - b.w, a.h - b.h⟩

/-- Window classification (§3). -/
inductive WindowType where
  | Normal
  | Dialog
  | Splash
  | Utility
  | Dock
  | Desktop
  | Toolbar
deriving Repr, DecidableEq

/-- Window state flags; only `Fullscreen` is inspected by the handlers. -/
inductive WindowState where
  | Fullscreen
  | Hidden
  | Above
deriving Repr, DecidableEq

/-- Layout tag, opaque to the policy except for the variants the insertion
algorithm matches on (`Monocle`, `MainAndDeck`) and the default
`MainAndVertStack`. -/
inductive Layout where
  | MainAndVertStack
  | Monocle
  | MainAndDeck
  | EvenHorizontal
deriving Repr, DecidableEq

/-- Configured insertion policy (§4.2). -/
inductive InsertBehavior where
  | Top
  | Bottom
  | AfterCurrent
  | BeforeCurrent
deriving Repr, DecidableEq

/-- Focus behaviour mode (§3 Focus Manager). -/
inductive FocusBehaviour where
  | Sloppy
  | ClickTo
  | Driven
deriving Repr, DecidableEq

def FocusBehaviour.is_sloppy : FocusBehaviour → Bool
  | .Sloppy => true
  | _ => false

/-- Modelled from the spec: the window entity (§3).  Handles, tags and pids
are opaque identifiers, modelled as `Nat`.  `floating` holds the optional
floating offset rectangle relative to `normal`; `is_floating` is the floating
flag; `must_float` marks forced-floating-only windows; `visible` and
`can_resize` are the derived predicates the handlers consult. -/
structure Window where
  handle : Nat
  type : WindowType
  transient : Option Nat
  tag : Option Nat
  pid : Option Nat
  states : List WindowState
  normal : Xyhw
  floating : Option Xyhw
  is_floating : Bool
  must_float : Bool
  requested : Option Xyhw
  start_loc : Option Xyhw
  strut : Option Xyhw
  border : Int
  margin_multiplier : Int
  visible : Bool
  can_resize : Bool
deriving Repr, DecidableEq

/-- Modelled from the spec: `Window::is_fullscreen` — the states contain the
fullscreen flag. -/
def Window.is_fullscreen (w : Window) : Bool :=
  w.states.contains WindowState.Fullscreen

/-- Modelled from the spec: `Window::is_managed` is false for the kinds the
policy must skip (§3 invariant). -/
def Window.is_managed (w : Window) : Bool :=
  w.type != WindowType.Desktop && w.type != WindowType.Dock

/-- Modelled from the spec: `Window::floating` — the floating flag, also set
for forced-floating windows. -/
def Window.floating_pred (w : Window) : Bool :=
  w.is_floating || w.must_float

/-- Modelled from the spec: `Window::set_floating` sets the floating flag. -/
def Window.set_floating (w : Window) (b : Bool) : Window :=
  { w with is_floating := b }

/-- Modelled from the spec: `Window::get_floating_offsets`. -/
def Window.get_floating_offsets (w : Window) : Option Xyhw :=
  w.floating

/-- Modelled from the spec: `Window::set_floating_offsets`. -/
def Window.set_floating_offsets (w : Window) (v : Option Xyhw) : Window :=
  { w with floating := v }

/-- Modelled from the spec: `Window::set_floating_exact` stores an exact
floating rectangle as an offset from the `normal` frame. -/
def Window.set_floating_exact (w : Window) (value : Xyhw) : Window :=
  w.set_floating_offsets (some (value.sub w.normal))

/-- Modelled from the spec (§3 invariant): a window's effective displayed
rectangle is the floating exact rectangle while floating, else the tiled
`normal` frame. -/
def Window.calculated_xyhw (w : Window) : Xyhw :=
  if w.floating_pred && w.floating.isSome then
    w.normal.add (w.floating.getD ⟨0, 0, 0, 0⟩)
  else
    w.normal

/-- Modelled from the spec: `Window::exact_xyhw` — the floating exact
rectangle when offsets are present, else the `normal` frame. -/
def Window.exact_xyhw (w : Window) : Xyhw :=
  match w.floating with
  | some f => w.normal.add f
  | none => w.normal

/-- Modelled from the spec: `Window::width` of the effective rectangle. -/
def Window.width (w : Window) : Int :=
  w.calculated_xyhw.w

/-- Modelled from the spec: `Window::height` of the effective rectangle. -/
def Window.height (w : Window) : Int :=
  w.calculated_xyhw.h

/-- Modelled from the spec: `apply_margin_multiplier` applies the workspace's
margin policy to the window (geometry-neutral in this model). -/
def Window.apply_margin_multiplier (w : Window) (m : Int) : Window :=
  { w with margin_multiplier := m }

/-- A fresh window as produced by `Window::new(handle, None, None)`:
Normal kind, untagged, not floating, no transient link. -/
def Window.mk_new (h : Nat) : Window :=
  { handle := h
    type := WindowType.Normal
    transient := none
    tag := none
    pid := none
    states := []
    normal := ⟨0, 0, 0, 0⟩
    floating := none
    is_floating := false
    must_float := false
    requested := none
    start_loc := none
    strut := none
    border := 0
    margin_multiplier := 1
    visible := true
    can_resize := true }

/-- Modelled from the spec: the workspace entity (§3): a tag-bound screen
region with layout selection, margin policy and the derived avoid list. -/
structure Workspace where
  tag : Option Nat
  xyhw : Xyhw
  layout : Layout
  margin_multiplier : Int
  avoid : List Xyhw
deriving Repr, DecidableEq

/-- Modelled from the spec: `Workspace::contains_point` delegates to the
workspace rectangle. -/
def Workspace.contains_point (ws : Workspace) (px py : Int) : Bool :=
  ws.xyhw.contains_point px py

/-- Modelled from the spec: `Workspace::center_halfed` of the workspace
rectangle. -/
def Workspace.center_halfed (ws : Workspace) : Xyhw :=
  ws.xyhw.center_halfed

/-- Modelled from the spec: `Workspace::is_managed` — the window sits on this
workspace's tag and is a managed kind. -/
def Workspace.is_managed_w (ws : Workspace) (w : Window) : Bool :=
  w.tag == ws.tag && w.is_managed

/-- Display actions appended to the outgoing action queue (§6).  `Restack`
stands for the implicit re-render/restack signal emitted when the window
list is re-sorted. -/
inductive DisplayAction where
  | AddedWindow (handle : Nat) (floating : Bool) (follow_mouse : Bool)
  | SetWindowTag (handle : Nat) (tag : Option Nat)
  | SetState (handle : Nat) (desired : Bool) (state : WindowState)
  | FocusWindow (handle : Nat)
  | FocusWindowUnderCursor
  | Unfocus (handle : Option Nat) (was_floating : Bool)
  | Restack
deriving Repr, DecidableEq

/-- Modelled from the spec: the focus manager (§3): focus history (front =
most recent, `none` = nothing focused), per-tag last-focused handles, the
behaviour mode and the two policy flags.  `workspace_history` holds indices
into the workspace list, front = currently focused workspace. -/
structure FocusManager where
  behaviour : FocusBehaviour
  focus_new_windows : Bool
  sloppy_mouse_follows_focus : Bool
  window_history : List (Option Nat)
  workspace_history : List Nat
  tags_last_window : List (Nat × Nat)
deriving Repr, DecidableEq

/-- Modelled from the spec: a named floating-window template (§3
Scratchpad).  The template geometry is opaque to the policy; names are
modelled as `Nat`. -/
structure ScratchPad where
  name : Nat
  rect : Xyhw
deriving Repr, DecidableEq

/-- Modelled from the spec: the scratchpad template's floating rectangle
computed relative to the workspace rectangle (opaque here). -/
def ScratchPad.xyhw_for (sp : ScratchPad) (_ws_rect : Xyhw) : Xyhw :=
  sp.rect

/-- The shared mutable aggregate the policy operates on (§2, §3): window
list, workspace list, focus manager, outgoing action queue, configured
insertion behaviour and the scratchpad bindings.  `nsp_tag` models the
lookup of the hidden scratchpad tag labelled NSP. -/
structure State where
  windows : List Window
  workspaces : List Workspace
  focus_manager : FocusManager
  actions : List DisplayAction
  insert_behavior : InsertBehavior
  active_scratchpads : List (Nat × List Nat)
  scratchpads : List ScratchPad
  nsp_tag : Option Nat
deriving Repr, DecidableEq

/-- Modelled from the spec: the external collaborators consumed at creation
time (§6): the two configuration hooks, and the outcome of the best-effort
terminal-ancestry walk (`$SHELL` and `/proc` reads, §4.1.5) abstracted as the
optional pid of the terminal launcher; `none` covers every failure mode. -/
structure Env where
  setup_predefined_window : Window → Window
  load_window : Window → Window
  terminal_pid : Option Nat

/-- The identity environment: no predefined-window hooks and no resolvable
terminal ancestry. -/
def Env.default : Env :=
  { setup_predefined_window := id
    load_window := id
    terminal_pid := none }

/-- Modelled from the spec: `FocusManager::window` resolves the currently
focused window from the history front against a window list (§3). -/
def FocusManager.window (fm : FocusManager) (windows : List Window) : Option Window :=
  match fm.window_history.head? with
  | some (some h) => windows.find? (fun w => w.handle == h)
  | _ => none

/-- Modelled from the spec: `FocusManager::workspace` resolves the currently
focused workspace from the workspace-history front (§3). -/
def FocusManager.workspace (fm : FocusManager) (workspaces : List Workspace) : Option Workspace :=
  match fm.workspace_history.head? with
  | some i => workspaces[i]?
  | none => none

/-- Append one action to the outgoing queue. -/
def State.push_action (s : State) (a : DisplayAction) : State :=
  { s with actions := s.actions ++ [a] }

/-- Modelled from the spec: `State::sort_windows` re-evaluates the stacking
order.  The window-list order is the authoritative stacking/insertion order
(§3), so sorting emits the implicit restack signal (§6) without permuting
the list — the repository's own insertion-order tests rely on exactly
this. -/
def State.sort_windows (s : State) : State :=
  s.push_action DisplayAction.Restack

/-- Modelled from the spec: `State::update_static` refreshes statically
cached layout metadata (a workspace usable-area cache, §4.3 step 7).  The
cache is derived data that is not part of the §3 data model, so the refresh
is the identity here. -/
def State.update_static (s : State) : State :=
  s

/-- Modelled from the spec: replace an assoc entry, used for
`tags_last_window` updates. -/
def update_assoc (l : List (Nat × Nat)) (t : Nat) (h : Nat) : List (Nat × Nat) :=
  (t, h) :: l.filter (fun p => !(p.1 == t))

/-- Modelled from the spec: `State::focus_window` — the policy's
focus-transfer call: push the handle onto the focus-history front, record it
as the tag's last-focused window and queue a `FocusWindow` action (§3
lifecycle, §6). -/
def State.focus_window (s : State) (h : Nat) : State :=
  match s.windows.find? (fun w => w.handle == h) with
  | none => s
  | some w =>
    let fm := s.focus_manager
    let fm' :=
      { fm with
        window_history := some h :: fm.window_history
        tags_last_window :=
          match w.tag with
          | some t => update_assoc fm.tags_last_window t h
          | none => fm.tags_last_window }
    { s with focus_manager := fm', actions := s.actions ++ [DisplayAction.FocusWindow h] }

/-- Modelled from the spec: `helpers::relative_find` as called by the
handlers (always with `should_loop = false`): locate the matching element
and return its neighbour `shift` places away, or `none` when out of
range. -/
def relative_find (vs : List Window) (p : Window → Bool) (shift : Int) : Option Window :=
  match vs.findIdx? p with
  | none => none
  | some i =>
    let j : Int := (i : Int) + shift
    if 0 ≤ j ∧ j < (vs.length : Int) then vs[j.toNat]? else none

/-- `update_workspace_avoid_list` (mod.rs lines 63-86): collect the struts of
all Dock windows, then give every workspace exactly the struts whose center
point it contains. -/
def update_workspace_avoid_list (s : State) : State :=
  let avoid : List Xyhw :=
    s.windows.filterMap (fun w => if w.type == WindowType.Dock then w.strut else none)
  { s with
    workspaces :=
      s.workspaces.map (fun ws =>
        { ws with
          avoid := avoid.filter (fun st =>
            let c := st.center
            ws.contains_point c.1 c.2) }) }

/-- One step of the transient back-reference chain: the transient link of the
window currently matching the candidate handle, if any (mod.rs lines
14-31). -/
def next_transient (windows : List Window) (t : Nat) : Option Nat :=
  (windows.find? (fun x => x.handle == t)).bind (fun x => x.transient)

/-- Fuel-indexed unfolding of the source's unbounded `find_transient_parent`
loop: `none` means the fuel ran out (the source loop would still be
running), `some r` means the loop returned `r`. -/
def find_transient_parent_fuel (windows : List Window) : Nat → Nat → Option (Option Window)
  | 0, _ => none
  | n + 1, t =>
    match next_transient windows t with
    | some found => find_transient_parent_fuel windows n found
    | none => some (windows.find? (fun x => x.handle == t))

/-- `find_transient_parent` (mod.rs lines 14-31): follow the transient chain
to its last resolvable handle and return that window.  The source loop has
no cycle detection and diverges on a cycle; this total embedding completes
it with fuel `windows.length + 1`, which the resolution theorem shows is
enough on every acyclic list (divergence is treated explicitly there). -/
def find_transient_parent (windows : List Window) (transient : Option Nat) : Option Window :=
  match transient with
  | none => none
  | some t => (find_transient_parent_fuel windows (windows.length + 1) t).getD none

/-- `is_scratchpad` (mod.rs lines 33-38): the window's pid is bound to an
active scratchpad. -/
def is_scratchpad (s : State) (w : Window) : Bool :=
  s.active_scratchpads.any (fun p => p.2.any (fun id => w.pid == some id))

/-- `find_terminal` (window_create_handler.rs lines 241-270).  Modelled from
the spec for the part outside the model: the `$SHELL`/`/proc` ancestry walk
is abstracted by `env.terminal_pid` (§4.1.5 — any failure silently yields no
inheritance); the final lookup of a managed window sharing the terminal's
pid is the source's. -/
def find_terminal (env : Env) (windows : List Window) (pid : Option Nat) : Option Window :=
  match pid, env.terminal_pid with
  | some _, some tp => windows.find? (fun w => w.pid == some tp)
  | _, _ => none

/-- Result of `setup_window`: the possibly updated state and window, the
workspace layout and the `is_first` / `on_same_tag` out-parameters (their
initial values `MainAndVertStack`, `false`, `true` survive when the
corresponding branch does not assign them). -/
structure SetupResult where
  state : State
  window : Window
  layout : Layout
  is_first : Bool
  on_same_tag : Bool

/-- `set_relative_floating` (window_create_handler.rs lines 272-291, the
variant wired in `mod.rs`): keep a requested rectangle that already fits the
workspace, else center it relative to `outer` and re-validate containment,
else fall back to the half-sized centered rectangle; no requested size also
gives the half-sized fallback. -/
def set_relative_floating (w : Window) (ws : Workspace) (outer : Xyhw) : Window :=
  let w1 := w.set_floating true
  let w2 := { w1 with normal := ws.xyhw }
  let xyhw :=
    match w2.requested with
    | none => ws.center_halfed
    | some requested =>
      if ws.xyhw.contains_xyhw requested then requested
      else
        let r1 := requested.center_relative outer w2.border
        if ws.xyhw.contains_xyhw r1 then r1 else ws.center_halfed
  w2.set_floating_exact xyhw

/-- `set_relative_floating` (create.rs lines 289-305, the orphaned
generation): center relative to `outer` first, re-validate containment and
re-center relative to the workspace rectangle as fallback, with no final
containment check. -/
def set_relative_floating_legacy (w : Window) (ws : Workspace) (outer : Xyhw) : Window :=
  let w1 := w.set_floating true
  let w2 := { w1 with normal := ws.xyhw }
  let xyhw :=
    match w2.requested with
    | none => ws.center_halfed
    | some requested =>
      let r1 := requested.center_relative outer w2.border
      if ws.xyhw.contains_xyhw r1 then r1
      else r1.center_relative ws.xyhw w2.border
  w2.set_floating_exact xyhw

/-- `setup_window`, parameterized by the `set_relative_floating` variant and
by whether the no-workspace branch calls `sort_windows` (the wired
window_create_handler.rs does, create.rs does not).  Chooses the target
workspace (pointer-hit only under sloppy focus, else the focused workspace),
resolves the tag, then runs the scratchpad / transient / kind-specific
placement rules (window_create_handler.rs lines 139-239). -/
def setup_window_core (srf : Window → Workspace → Xyhw → Window)
    (sort_in_none_branch : Bool) (env : Env) (s : State) (w : Window)
    (xy : Int × Int) : SetupResult :=
  let ws_opt :=
    (s.workspaces.find? (fun ws =>
      ws.xyhw.contains_point xy.1 xy.2 && s.focus_manager.behaviour.is_sloppy)).or
    (s.focus_manager.workspace s.workspaces)
  match ws_opt with
  | some ws =>
    let is_first := !(s.windows.any (fun x => ws.tag == x.tag && x.is_managed))
    let w1 :=
      if w.tag.isNone then
        { w with
          tag := match find_terminal env s.windows w.pid with
            | some terminal => terminal.tag
            | none => ws.tag }
      else w
    let on_same_tag := ws.tag == w1.tag
    let layout := ws.layout
    let scr := s.active_scratchpads.find? (fun p => p.2.any (fun id => w1.pid == some id))
    let w2 := if scr.isSome then w1.set_floating true else w1
    let sp_template : Option ScratchPad :=
      match scr with
      | some (name, _) => s.scratchpads.find? (fun sp => sp.name == name)
      | none => none
    match sp_template with
    | some sp =>
      let w3 := { w2 with normal := ws.xyhw }
      let w4 := w3.set_floating_exact (sp.xyhw_for ws.xyhw)
      ⟨s, w4, layout, is_first, on_same_tag⟩
    | none =>
      let transient_placed :=
        match find_transient_parent s.windows w2.transient with
        | some parent =>
          if w2.type == WindowType.Utility then none
          else some (srf w2 ws parent.exact_xyhw)
        | none => none
      match transient_placed with
      | some w3 => ⟨s, w3, layout, is_first, on_same_tag⟩
      | none =>
        let w3 :=
          match w2.type with
          | WindowType.Normal =>
            let wm := w2.apply_margin_multiplier ws.margin_multiplier
            if wm.floating_pred then srf wm ws ws.xyhw else wm
          | WindowType.Dialog =>
            if w2.can_resize then
              let wf := w2.set_floating true
              let wf := { wf with normal := ws.xyhw }
              wf.set_floating_exact ws.center_halfed
            else srf w2 ws ws.xyhw
          | WindowType.Splash => srf w2 ws ws.xyhw
          | _ => w2
        ⟨s, w3, layout, is_first, on_same_tag⟩
  | none =>
    let s1 := if sort_in_none_branch then s.sort_windows else s
    let w1 := { w with tag := some 1 }
    let w2 :=
      if is_scratchpad s1 w1 then
        match s1.nsp_tag with
        | some t => ({ w1 with tag := some t }).set_floating true
        | none => w1
      else w1
    ⟨s1, w2, Layout.MainAndVertStack, false, true⟩

/-- `insert_window` (window_create_handler.rs lines 59-137): minimize a
fullscreen sibling for a new Normal window, give Monocle / MainAndDeck
layouts their strict visual order via extract-and-splice, put dialog-like and
scratchpad windows on top, and otherwise insert according to the configured
insertion behaviour relative to the currently focused window's index. -/
def insert_window (s : State) (w : Window) (layout : Layout) : State :=
  let for_active_workspace := fun (x : Window) => w.tag == x.tag && x.is_managed
  let fs_found :=
    if w.type == WindowType.Normal then
      s.windows.find? (fun x => for_active_workspace x && x.is_fullscreen)
    else none
  let was_fullscreen := fs_found.isSome
  let s1 :=
    match fs_found with
    | some fsw =>
      s.push_action (DisplayAction.SetState fsw.handle (!fsw.is_fullscreen) WindowState.Fullscreen)
    | none => s
  if w.type == WindowType.Normal &&
      (layout == Layout.Monocle || layout == Layout.MainAndDeck) then
    let to_reorder := s1.windows.filter for_active_workspace
    let rest := s1.windows.filter (fun x => !(for_active_workspace x))
    if layout == Layout.Monocle || to_reorder.isEmpty then
      let s2 :=
        if was_fullscreen then
          s1.push_action
            (DisplayAction.SetState w.handle (!w.is_fullscreen) WindowState.Fullscreen)
        else s1
      { s2 with windows := rest ++ (w :: to_reorder) }
    else
      { s1 with windows := rest ++ List.insertIdx 1 w to_reorder }
  else if w.type == WindowType.Dialog || w.type == WindowType.Splash ||
      w.type == WindowType.Utility || is_scratchpad s1 w then
    { s1 with windows := w :: s1.windows }
  else
    let current_index :=
      ((s1.focus_manager.window s1.windows).bind (fun current =>
        s1.windows.findIdx? (fun x => x.handle == current.handle))).getD 0
    match s1.insert_behavior with
    | InsertBehavior.Top => { s1 with windows := w :: s1.windows }
    | InsertBehavior.Bottom => { s1 with windows := s1.windows ++ [w] }
    | InsertBehavior.AfterCurrent =>
      if current_index < s1.windows.length then
        { s1 with windows := List.insertIdx (current_index + 1) w s1.windows }
      else
        { s1 with windows := List.insertIdx current_index w s1.windows }
    | InsertBehavior.BeforeCurrent =>
      { s1 with windows := List.insertIdx current_index w s1.windows }

/-- The window-created handler, parameterized by the presence of the
idempotence guard and the `setup_window` variant.  `exec_shell` for the
on-new-window hook is fire-and-forget and leaves the shared state untouched,
so it has no trace here. -/
def window_created_handler_core (guard : Bool)
    (srf : Window → Workspace → Xyhw → Window) (sort_in_none_branch : Bool)
    (env : Env) (s : State) (w0 : Window) (x y : Int) : Bool × State :=
  if guard && s.windows.any (fun w => w.handle == w0.handle) then (false, s)
  else
    let w1 := env.setup_predefined_window w0
    let r := setup_window_core srf sort_in_none_branch env s w1 (x, y)
    let w2 := env.load_window r.window
    let s2 := insert_window r.state w2 r.layout
    let follow_mouse :=
      s2.focus_manager.focus_new_windows &&
      s2.focus_manager.behaviour.is_sloppy &&
      s2.focus_manager.sloppy_mouse_follows_focus && r.on_same_tag
    let s3 := s2.push_action (DisplayAction.AddedWindow w2.handle w2.floating_pred follow_mouse)
    let s4 :=
      if w2.tag.isSome then s3.push_action (DisplayAction.SetWindowTag w2.handle w2.tag)
      else s3
    let s5 := s4.sort_windows
    let s6 :=
      if (s5.focus_manager.focus_new_windows || r.is_first) && r.on_same_tag then
        s5.focus_window w2.handle
      else s5
    (true, s6)

/-- `window_created_handler` (window_create_handler.rs lines 14-57): the
generation wired in `mod.rs`.  It has no idempotence guard. -/
def window_created_handler (env : Env) (s : State) (w0 : Window) (x y : Int) : Bool × State :=
  window_created_handler_core false set_relative_floating true env s w0 x y

/-- `window_created_handler` (create.rs lines 17-66): the orphaned
generation, with the idempotence guard of lines 19-21 and the legacy
`set_relative_floating`. -/
def window_created_handler_guarded (env : Env) (s : State) (w0 : Window) (x y : Int) : Bool × State :=
  window_created_handler_core true set_relative_floating_legacy false env s w0 x y

/-- `get_next_or_previous_handle` (mod.rs lines 42-53): extract the focused
workspace's managed windows (`helpers::vec_extract` keeps relative order and
appends the extracted group back at the end of the list), and return the
handle after — else before — the given one inside that group. -/
def get_next_or_previous_handle (s : State) (h : Nat) : Option Nat × State :=
  match s.focus_manager.workspace s.workspaces with
  | none => (none, s)
  | some focused_workspace =>
    let on_focused_workspace := fun (x : Window) => focused_workspace.is_managed_w x
    let windows_on_workspace := s.windows.filter on_focused_workspace
    let remaining := s.windows.filter (fun x => !(on_focused_workspace x))
    let is_handle := fun (x : Window) => x.handle == h
    let new_handle :=
      ((relative_find windows_on_workspace is_handle 1).or
        (relative_find windows_on_workspace is_handle (-1))).map (fun w => w.handle)
    (new_handle, { s with windows := remaining ++ windows_on_workspace })

/-- `window_destroyed_handler` (window_destroy_handler.rs lines 9-51,
identical in destroy.rs): compute the focus successor before mutating, bail
out on an unknown handle, purge the handle from `tags_last_window` and the
window list, recompute dock avoidance, then restore focus when the destroyed
window was the currently focused one. -/
def window_destroyed_handler (s : State) (h : Nat) : Bool × State :=
  let (new_handle, s1) := get_next_or_previous_handle s h
  match s1.windows.find? (fun w => w.handle == h) with
  | none => (false, s1)
  | some w =>
    let transient := w.transient
    let floating := w.floating_pred
    let visible := w.visible
    let fm := s1.focus_manager
    let s2 :=
      { s1 with
        focus_manager :=
          { fm with tags_last_window := fm.tags_last_window.filter (fun p => !(p.2 == h)) }
        windows := s1.windows.filter (fun x => !(x.handle == h)) }
    let s3 := update_workspace_avoid_list s2
    let focused := s3.focus_manager.window_history.head?
    let s4 :=
      if focused == some (some h) then
        if s3.focus_manager.behaviour.is_sloppy &&
            s3.focus_manager.sloppy_mouse_follows_focus then
          s3.push_action DisplayAction.FocusWindowUnderCursor
        else
          match find_transient_parent s3.windows transient with
          | some parent => s3.focus_window parent.handle
          | none =>
            match new_handle with
            | some nh => s3.focus_window nh
            | none =>
              let s3' := s3.push_action (DisplayAction.Unfocus (some h) floating)
              { s3' with
                focus_manager :=
                  { s3'.focus_manager with
                    window_history := none :: s3'.focus_manager.window_history } }
      else s3
    (visible, s4)

/-- `process_window` (mod.rs lines 55-61): set the floating offset's
position to the drag-start location plus the event's offsets. -/
def process_window (w : Window) (offset_x offset_y : Int) : Window :=
  let offset := w.get_floating_offsets.getD ⟨0, 0, 0, 0⟩
  let start := w.start_loc.getD ⟨0, 0, 0, 0⟩
  let offset := { offset with x := start.x + offset_x, y := start.y + offset_y }
  w.set_floating_offsets (some offset)

/-- Modelled from the spec: `Window::snap_to_workspace` (outside `src/`,
§4.7 — snap the window's edge to the workspace edge): every effective edge
lying within the fixed snap distance of the matching workspace edge is
aligned to it, the closer parallel edge winning, and the move reports
success. -/
def snap_window_to_workspace (w : Window) (ws : Workspace) : Window :=
  let loc := w.calculated_xyhw
  let dist : Int := 10
  let x' :=
    if |loc.x - ws.xyhw.x| < dist then ws.xyhw.x
    else if |loc.x + loc.w - (ws.xyhw.x + ws.xyhw.w)| < dist then
      ws.xyhw.x + ws.xyhw.w - loc.w
    else loc.x
  let y' :=
    if |loc.y - ws.xyhw.y| < dist then ws.xyhw.y
    else if |loc.y + loc.h - (ws.xyhw.y + ws.xyhw.h)| < dist then
      ws.xyhw.y + ws.xyhw.h - loc.h
    else loc.y
  w.set_floating_exact { loc with x := x', y := y' }

/-- `should_snap` (window_move_handler.rs lines 40-67): a non-forced-floating
window snaps when some effective edge is strictly within 10 px of the
matching workspace edge. -/
def should_snap (w : Window) (ws : Workspace) (loc : Xyhw) : Bool × Window :=
  if w.must_float then (false, w)
  else
    let win_left := loc.x
    let win_right := win_left + w.width
    let win_top := loc.y
    let win_bottom := win_top + w.height
    let dist : Int := 10
    let ws_left := ws.xyhw.x
    let ws_right := ws.xyhw.x + ws.xyhw.w
    let ws_top := ws.xyhw.y
    let ws_bottom := ws.xyhw.y + ws.xyhw.h
    if [win_top - ws_top, win_bottom - ws_bottom,
        win_left - ws_left, win_right - ws_right].any (fun d => |d| < dist) then
      (true, snap_window_to_workspace w ws)
    else (false, w)

/-- `snap_to_workspace` (window_move_handler.rs lines 27-36): find the
workspace containing the window's center and delegate to `should_snap`. -/
def snap_to_workspace (w : Window) (workspaces : List Workspace) : Bool × Window :=
  let loc := w.calculated_xyhw
  let c := loc.center
  match workspaces.find? (fun ws => ws.contains_point c.1 c.2) with
  | some workspace => should_snap w workspace loc
  | none => (false, w)

/-- Replace the first window matching the predicate (the effect of mutating
through `iter_mut().find`). -/
def update_first_window (l : List Window) (p : Window → Bool) (f : Window → Window) : List Window :=
  match l with
  | [] => []
  | w :: rest => if p w then f w :: rest else w :: update_first_window rest p f

/-- `window_move_handler` (window_move_handler.rs lines 7-24): update the
floating offsets from the drag start, then snap to the containing workspace
unless snapping is disabled, re-sorting the window list when a snap
happened; unknown handles are a `false` no-op. -/
def window_move_handler (disable_snap : Bool) (s : State) (h : Nat)
    (offset_x offset_y : Int) : Bool × State :=
  match s.windows.find? (fun w => w.handle == h) with
  | none => (false, s)
  | some w =>
    let w1 := process_window w offset_x offset_y
    let (snapped, w2) :=
      if disable_snap then (false, w1) else snap_to_workspace w1 s.workspaces
    let s1 := { s with windows := update_first_window s.windows (fun x => x.handle == h) (fun _ => w2) }
    let s2 := if snapped then s1.sort_windows else s1
    (true, s2)

/-- `window_resize_handler` (window_resize_handler.rs lines 7-18): the wired
code reuses `process_window`, so the event's width/height offsets are
applied to the floating offset's position; unknown handles are a `false`
no-op. -/
def window_resize_handler (s : State) (h : Nat) (offset_w offset_h : Int) : Bool × State :=
  match s.windows.find? (fun w => w.handle == h) with
  | none => (false, s)
  | some w =>
    let w1 := process_window w offset_w offset_h
    let s1 := { s with windows := update_first_window s.windows (fun x => x.handle == h) (fun _ => w1) }
    (true, s1)

/-- A window-changed event (§4.3, §6): the handle, the optional updated
fields the handler inspects, and the `update` capability reporting whether
anything actually changed.  In the wired handler the capability is applied
to a clone of the window list that is subsequently dropped, so only its
boolean outcome matters. -/
structure WindowChange where
  handle : Nat
  states : Option (List WindowState)
  strut : Option Xyhw
  update : Window → Option Xyhw → Bool

/-- `window_changed_handler` (window_changed_handler.rs lines 5-57): locate
the window in a snapshot of the list, detect fullscreen transitions, build
the container rectangle (transient parent's exact rectangle, else the tag's
workspace for dialogs), apply the update capability to the snapshot,
recompute dock avoidance for docks, and run the fullscreen / strut
after-passes.  `display_server.update_windows` touches no shared state. -/
def window_changed_handler (s : State) (c : WindowChange) : Bool × State :=
  let strut_changed := c.strut.isSome
  let found := s.windows.find? (fun w => w.handle == c.handle)
  let fullscreen_changed :=
    match found, c.states with
    | some w, some states => states.contains WindowState.Fullscreen || w.is_fullscreen
    | _, _ => false
  let changed :=
    match found with
    | some w =>
      let container : Option Xyhw :=
        match find_transient_parent s.windows w.transient with
        | some parent => some parent.exact_xyhw
        | none =>
          if w.type == WindowType.Dialog then
            (s.workspaces.find? (fun ws => ws.tag == w.tag)).map (fun ws => ws.xyhw)
          else none
      c.update w container
    | none => false
  let s1 :=
    match found with
    | some w => if w.type == WindowType.Dock then update_workspace_avoid_list s else s
    | none => s
  let s2 := if fullscreen_changed then s1.sort_windows else s1
  let s3 := if strut_changed then s2.update_static else s2
  (changed, s3)

/-- The single workspace of the insertion-law scenario (tag 1, default
layout), mirroring the repository's own `Screen::default()`-based tests. -/
def test_workspace : Workspace :=
  { tag := some 1
    xyhw := ⟨0, 0, 2000, 1000⟩
    layout := Layout.MainAndVertStack
    margin_multiplier := 1
    avoid := [] }

/-- A state of the insertion-law scenario family: one workspace holding
focus, no scratchpads, and the window list / action queue / focus histories
left variable so that creation steps can be reasoned about inductively.
`focus_new_windows` is off, matching the test harness the repository's
insertion-order tests run under (their expected orders require focus to stay
on the first window). -/
def mk_state (b : InsertBehavior) (wins : List Window) (acts : List DisplayAction)
    (hist : List (Option Nat)) (tlw : List (Nat × Nat)) : State :=
  { windows := wins
    workspaces := [test_workspace]
    focus_manager :=
      { behaviour := FocusBehaviour.Sloppy
        focus_new_windows := false
        sloppy_mouse_follows_focus := true
        window_history := hist
        workspace_history := [0]
        tags_last_window := tlw }
    actions := acts
    insert_behavior := b
    active_scratchpads := []
    scratchpads := []
    nsp_tag := none }

/-- The empty starting state of the insertion-law scenario. -/
def init_state (b : InsertBehavior) : State :=
  mk_state b [] [] [] []

/-- Create a sequence of fresh Normal windows through the wired
window-created handler, pointer at (-1, -1) as in the repository's
tests. -/
def create_seq (s : State) (hs : List Nat) : State :=
  hs.foldl (fun s h => (window_created_handler Env.default s (Window.mk_new h) (-1) (-1)).2) s

/-- The stacking order as a list of handles. -/
def handles_of (s : State) : List Nat :=
  s.windows.map (fun w => w.handle)

/-- What `setup_window` makes of a fresh Normal window in the scenario:
tagged with the workspace's tag, margin applied. -/
def placed_window (h : Nat) : Window :=
  { Window.mk_new h with tag := some 1, margin_multiplier := 1 }

theorem focus_window_split (s : State) (h : Nat) :
    ∃ hist tlw acts, s.focus_window h =
      { s with
        focus_manager :=
          { s.focus_manager with window_history := hist, tags_last_window := tlw }
        actions := acts } := by
  unfold State.focus_window
  cases s.windows.find? (fun w => w.handle == h) with
  | none => exact ⟨_, _, _, rfl⟩
  | some w =>
    cases w.tag with
    | none => exact ⟨_, _, _, rfl⟩
    | some t => exact ⟨_, _, _, rfl⟩

theorem setup_scenario (b : InsertBehavior) (wins : List Window) (acts : List DisplayAction)
    (hist : List (Option Nat)) (tlw : List (Nat × Nat)) (h : Nat) :
    ∃ isf, setup_window_core set_relative_floating true Env.default
        (mk_state b wins acts hist tlw) (Window.mk_new h) (-1, -1) =
      ⟨mk_state b wins acts hist tlw, placed_window h, Layout.MainAndVertStack, isf, true⟩ := by
  refine ⟨!(wins.any (fun x => some 1 == x.tag && x.is_managed)), ?_⟩
  simp +decide [setup_window_core, mk_state, test_workspace, FocusManager.workspace,
    find_terminal, Env.default, find_transient_parent, Window.mk_new,
    Window.apply_margin_multiplier, placed_window, Xyhw.contains_point,
    FocusBehaviour.is_sloppy, Window.floating_pred, Option.or, is_scratchpad]


theorem insert_window_scenario_bottom (wins : List Window) (acts : List DisplayAction)
    (hist : List (Option Nat)) (tlw : List (Nat × Nat)) (w : Window)
    (hn : w.type = WindowType.Normal) :
    ∃ acts', insert_window (mk_state InsertBehavior.Bottom wins acts hist tlw) w
        Layout.MainAndVertStack
      = mk_state InsertBehavior.Bottom (wins ++ [w]) acts' hist tlw := by
  unfold insert_window
  simp only [mk_state, hn]
  cases hfs : wins.find? (fun x => (w.tag == x.tag && x.is_managed) && x.is_fullscreen) with
  | none => exact ⟨acts, by simp +decide [hfs, is_scratchpad, State.push_action]⟩
  | some fsw =>
    exact ⟨acts ++ [DisplayAction.SetState fsw.handle (!fsw.is_fullscreen) WindowState.Fullscreen],
      by simp +decide [hfs, is_scratchpad, State.push_action]⟩


theorem insert_window_scenario_top (wins : List Window) (acts : List DisplayAction)
    (hist : List (Option Nat)) (tlw : List (Nat × Nat)) (w : Window)
    (hn : w.type = WindowType.Normal) :
    ∃ acts', insert_window (mk_state InsertBehavior.Top wins acts hist tlw) w
        Layout.MainAndVertStack
      = mk_state InsertBehavior.Top (w :: wins) acts' hist tlw := by
  unfold insert_window
  simp only [mk_state, hn]
  cases hfs : wins.find? (fun x => (w.tag == x.tag && x.is_managed) && x.is_fullscreen) with
  | none => exact ⟨acts, by simp +decide [hfs, is_scratchpad, State.push_action]⟩
  | some fsw =>
    exact ⟨acts ++ [DisplayAction.SetState fsw.handle (!fsw.is_fullscreen) WindowState.Fullscreen],
      by simp +decide [hfs, is_scratchpad, State.push_action]⟩

theorem focus_window_mk_state (b : InsertBehavior) (W : List Window) (A : List DisplayAction)
    (H : List (Option Nat)) (T : List (Nat × Nat)) (h : Nat) :
    ∃ H' T' A', (mk_state b W A H T).focus_window h = mk_state b W A' H' T' := by
  obtain ⟨H', T', A', e⟩ := focus_window_split (mk_state b W A H T) h
  exact ⟨H', T', A', e⟩

theorem created_tail_mk_state (b : InsertBehavior) (W : List Window)
    (A : List DisplayAction) (H : List (Option Nat)) (T : List (Nat × Nat))
    (w2 : Window) (cond1 cond2 : Bool) (a1 : DisplayAction) :
    ∃ A' H' T',
      (if cond2 then
        ((if cond1 then
            ((mk_state b W A H T).push_action a1).push_action
              (DisplayAction.SetWindowTag w2.handle w2.tag)
          else
            (mk_state b W A H T).push_action a1).sort_windows).focus_window w2.handle
      else
        ((if cond1 then
            ((mk_state b W A H T).push_action a1).push_action
              (DisplayAction.SetWindowTag w2.handle w2.tag)
          else
            (mk_state b W A H T).push_action a1).sort_windows))
      = mk_state b W A' H' T' := by
  cases cond1 with
  | true =>
    cases cond2 with
    | true =>
      obtain ⟨H', T', A', e⟩ := focus_window_mk_state b W
        (((A ++ [a1]) ++ [DisplayAction.SetWindowTag w2.handle w2.tag]) ++
          [DisplayAction.Restack]) H T w2.handle
      exact ⟨A', H', T', e⟩
    | false =>
      exact ⟨((A ++ [a1]) ++ [DisplayAction.SetWindowTag w2.handle w2.tag]) ++
        [DisplayAction.Restack], H, T, rfl⟩
  | false =>
    cases cond2 with
    | true =>
      obtain ⟨H', T', A', e⟩ := focus_window_mk_state b W
        ((A ++ [a1]) ++ [DisplayAction.Restack]) H T w2.handle
      exact ⟨A', H', T', e⟩
    | false =>
      exact ⟨(A ++ [a1]) ++ [DisplayAction.Restack], H, T, rfl⟩

theorem created_step_bottom (wins : List Window) (acts : List DisplayAction)
    (hist : List (Option Nat)) (tlw : List (Nat × Nat)) (h : Nat) :
    ∃ acts' hist' tlw',
      (window_created_handler Env.default (mk_state InsertBehavior.Bottom wins acts hist tlw)
        (Window.mk_new h) (-1) (-1)).2
      = mk_state InsertBehavior.Bottom (wins ++ [placed_window h]) acts' hist' tlw' := by
  obtain ⟨isf, hsetup⟩ := setup_scenario InsertBehavior.Bottom wins acts hist tlw h
  obtain ⟨acts2, hins⟩ := insert_window_scenario_bottom wins acts hist tlw (placed_window h) rfl
  unfold window_created_handler window_created_handler_core
  simp only [Env.default] at hsetup
  simp only [Env.default, id_eq, Bool.false_and, Bool.false_eq_true, if_false, hsetup, hins]
  obtain ⟨A', H', T', e⟩ := created_tail_mk_state InsertBehavior.Bottom
    (wins ++ [placed_window h]) acts2 hist tlw (placed_window h) _ _ _
  exact ⟨A', H', T', e⟩

theorem created_step_top (wins : List Window) (acts : List DisplayAction)
    (hist : List (Option Nat)) (tlw : List (Nat × Nat)) (h : Nat) :
    ∃ acts' hist' tlw',
      (window_created_handler Env.default (mk_state InsertBehavior.Top wins acts hist tlw)
        (Window.mk_new h) (-1) (-1)).2
      = mk_state InsertBehavior.Top (placed_window h :: wins) acts' hist' tlw' := by
  obtain ⟨isf, hsetup⟩ := setup_scenario InsertBehavior.Top wins acts hist tlw h
  obtain ⟨acts2, hins⟩ := insert_window_scenario_top wins acts hist tlw (placed_window h) rfl
  unfold window_created_handler window_created_handler_core
  simp only [Env.default] at hsetup
  simp only [Env.default, id_eq, Bool.false_and, Bool.false_eq_true, if_false, hsetup, hins]
  obtain ⟨A', H', T', e⟩ := created_tail_mk_state InsertBehavior.Top
    (placed_window h :: wins) acts2 hist tlw (placed_window h) _ _ _
  exact ⟨A', H', T', e⟩

theorem create_seq_bottom (hs : List Nat) : ∀ (wins : List Window) (acts : List DisplayAction)
    (hist : List (Option Nat)) (tlw : List (Nat × Nat)),
    (create_seq (mk_state InsertBehavior.Bottom wins acts hist tlw) hs).windows
      = wins ++ hs.map placed_window := by
  induction hs with
  | nil => intro wins acts hist tlw; simp [create_seq, mk_state]
  | cons h t ih =>
    intro wins acts hist tlw
    obtain ⟨acts', hist', tlw', e⟩ := created_step_bottom wins acts hist tlw h
    simp only [create_seq, List.foldl_cons] at ih ⊢
    rw [e, ih]
    simp

theorem create_seq_top (hs : List Nat) : ∀ (wins : List Window) (acts : List DisplayAction)
    (hist : List (Option Nat)) (tlw : List (Nat × Nat)),
    (create_seq (mk_state InsertBehavior.Top wins acts hist tlw) hs).windows
      = (hs.map placed_window).reverse ++ wins := by
  induction hs with
  | nil => intro wins acts hist tlw; simp [create_seq, mk_state]
  | cons h t ih =>
    intro wins acts hist tlw
    obtain ⟨acts', hist', tlw', e⟩ := created_step_top wins acts hist tlw h
    simp only [create_seq, List.foldl_cons] at ih ⊢
    rw [e, ih]
    simp

theorem placed_window_handle (h : Nat) : (placed_window h).handle = h := rfl

/-- C1: Insertion-behavior laws. -/
theorem insertion_behavior_laws :
    (∀ hs : List Nat, handles_of (create_seq (init_state InsertBehavior.Bottom) hs) = hs) ∧
    (∀ hs : List Nat, handles_of (create_seq (init_state InsertBehavior.Top) hs) = hs.reverse) ∧
    handles_of (create_seq (init_state InsertBehavior.AfterCurrent) [1, 2, 3]) = [1, 3, 2] ∧
    handles_of (create_seq (init_state InsertBehavior.BeforeCurrent) [1, 2, 3]) = [2, 3, 1] := by
  refine ⟨fun hs => ?_, fun hs => ?_, by decide, by decide⟩
  · have e := create_seq_bottom hs [] [] [] []
    simp [init_state, handles_of, e, List.map_map, Function.comp_def, placed_window_handle]
  · have e := create_seq_top hs [] [] [] []
    simp [init_state, handles_of, e, List.map_reverse, List.map_map, Function.comp_def,
      placed_window_handle]

/-- C2: the wired window-created handler (window_create_handler.rs) has no
idempotence guard: on a state already tracking handle 1 it runs the full
placement pipeline, appends a second entry with handle 1 and returns true.
The orphaned generation (create.rs lines 19-21) is the guarded no-op the
claim describes: it returns false and leaves the state untouched. -/
theorem created_handler_duplicate_handle :
    (window_created_handler Env.default
        (mk_state InsertBehavior.Bottom [placed_window 1] [] [] [])
        (Window.mk_new 1) (-1) (-1)).1 = true ∧
    handles_of (window_created_handler Env.default
        (mk_state InsertBehavior.Bottom [placed_window 1] [] [] [])
        (Window.mk_new 1) (-1) (-1)).2 = [1, 1] ∧
    window_created_handler_guarded Env.default
        (mk_state InsertBehavior.Bottom [placed_window 1] [] [] [])
        (Window.mk_new 1) (-1) (-1)
      = (false, mk_state InsertBehavior.Bottom [placed_window 1] [] [] []) := by
  decide

/-- C10: handle uniqueness is not preserved by the wired window-created
handler: starting from a window list with pairwise distinct handles, a
created event for an already-tracked handle yields a list with a duplicated
handle. -/
theorem handle_uniqueness_violation :
    (handles_of (mk_state InsertBehavior.Bottom [placed_window 1] [] [] [])).Nodup ∧
    ¬ (handles_of (window_created_handler Env.default
        (mk_state InsertBehavior.Bottom [placed_window 1] [] [] [])
        (Window.mk_new 1) (-1) (-1)).2).Nodup := by
  decide

/-- The resize-scenario window: floating, drag-start location (10, 20) with
size (30, 40), no offsets yet. -/
def resize_scenario_window : Window :=
  { Window.mk_new 1 with
    tag := some 1
    is_floating := true
    start_loc := some ⟨10, 20, 30, 40⟩ }

def resize_scenario_state : State :=
  mk_state InsertBehavior.Bottom [resize_scenario_window] [] [] []

/-- C8: the wired resize handler reuses `process_window`, so a resize event
with offsets (5, 7) sets the floating offset's position to drag-start
position + (5, 7) = (15, 27) and leaves the width/height offsets at 0 —
instead of setting the size offset to drag-start size + (5, 7) = (35, 47).
Its state change is exactly the move handler's; only the unknown-handle
no-op part of the claim holds. -/
theorem resize_applies_position_offsets :
    (window_resize_handler resize_scenario_state 1 5 7).1 = true ∧
    ((window_resize_handler resize_scenario_state 1 5 7).2.windows.map
      (fun w => w.floating)) = [some ⟨15, 27, 0, 0⟩] ∧
    (window_resize_handler resize_scenario_state 1 5 7).2
      = (window_move_handler true resize_scenario_state 1 5 7).2 ∧
    window_resize_handler resize_scenario_state 99 5 7 = (false, resize_scenario_state) := by
  decide

/-- The state change `get_next_or_previous_handle` performs regardless of its
argument: the focused workspace's managed windows move to the back of the
window list (the effect of `vec_extract` followed by `append`). -/
def focused_workspace_to_back (s : State) : State :=
  match s.focus_manager.workspace s.workspaces with
  | none => s
  | some ws =>
    { s with
      windows := s.windows.filter (fun x => !(ws.is_managed_w x)) ++
        s.windows.filter (fun x => ws.is_managed_w x) }

theorem get_next_or_previous_state (s : State) (h : Nat) :
    (get_next_or_previous_handle s h).2 = focused_workspace_to_back s := by
  unfold get_next_or_previous_handle focused_workspace_to_back
  cases s.focus_manager.workspace s.workspaces with
  | none => rfl
  | some ws => rfl

theorem find?_none_to_back (s : State) (p : Window → Bool)
    (hp : s.windows.find? p = none) :
    (focused_workspace_to_back s).windows.find? p = none := by
  unfold focused_workspace_to_back
  cases s.focus_manager.workspace s.workspaces with
  | none => exact hp
  | some ws =>
    rw [List.find?_eq_none] at hp ⊢
    intro x hx
    rcases List.mem_append.1 hx with hx' | hx' <;>
      exact hp x (List.mem_of_mem_filter hx')

/-- The counterexample state for the lookup-miss claim: the focused
workspace holds tag 1, and tag-1 windows are interleaved with a tag-2
window. -/
def lookup_miss_state : State :=
  mk_state InsertBehavior.Bottom
    [{ Window.mk_new 1 with tag := some 1 },
     { Window.mk_new 2 with tag := some 2 },
     { Window.mk_new 3 with tag := some 1 }] [] [] []

/-- C7 counterexample: handle 99 is unknown, yet the destroyed handler
permutes the window list (the focus-successor pre-scan moves the focused
workspace's windows to the back): [1, 2, 3] becomes [2, 1, 3], so the
shared state is not left unchanged. -/
theorem lookup_miss_destroy_not_noop :
    lookup_miss_state.windows.find? (fun w => w.handle == 99) = none ∧
    (window_destroyed_handler lookup_miss_state 99).1 = false ∧
    handles_of (window_destroyed_handler lookup_miss_state 99).2 = [2, 1, 3] ∧
    (window_destroyed_handler lookup_miss_state 99).2 ≠ lookup_miss_state := by
  decide

/-- C7 amended: on an unknown handle the changed, moved and resized handlers
return false and leave the whole state unchanged; the destroyed handler also
returns false and removes nothing, but its focus-successor pre-scan may
reorder the window list — the focused workspace's managed windows move to
the back, everything else unchanged. -/
theorem lookup_miss_handlers (s : State) (h : Nat) (dx dy dw dh : Int)
    (d : Bool) (c : WindowChange)
    (hh : s.windows.find? (fun w => w.handle == h) = none)
    (hc : s.windows.find? (fun w => w.handle == c.handle) = none) :
    window_move_handler d s h dx dy = (false, s) ∧
    window_resize_handler s h dw dh = (false, s) ∧
    window_changed_handler s c = (false, s) ∧
    window_destroyed_handler s h = (false, focused_workspace_to_back s) := by
  refine ⟨?_, ?_, ?_, ?_⟩
  · simp [window_move_handler, hh]
  · simp [window_resize_handler, hh]
  · simp [window_changed_handler, hc, State.update_static]
  · have hback := get_next_or_previous_state s h
    have hfind := find?_none_to_back s (fun w => w.handle == h) hh
    unfold window_destroyed_handler
    rcases hgp : get_next_or_previous_handle s h with ⟨nh, s1⟩
    have hs1 : s1 = focused_workspace_to_back s := by rw [← hback, hgp]
    subst hs1
    dsimp only
    rw [hfind]

theorem lookup_miss_handlers_witness :
    window_move_handler false lookup_miss_state 99 1 2 = (false, lookup_miss_state) ∧
    window_resize_handler lookup_miss_state 99 3 4 = (false, lookup_miss_state) ∧
    window_changed_handler lookup_miss_state ⟨99, none, none, fun _ _ => false⟩
      = (false, lookup_miss_state) ∧
    window_destroyed_handler lookup_miss_state 99
      = (false, focused_workspace_to_back lookup_miss_state) :=
  lookup_miss_handlers lookup_miss_state 99 1 2 3 4 false
    ⟨99, none, none, fun _ _ => false⟩ (by decide) (by decide)

/-- The struts of the Dock windows in a window list whose center point lies
inside the given rectangle — the set every workspace's avoid list must equal
after a recomputation. -/
def dock_struts_in (windows : List Window) (rect : Xyhw) : List Xyhw :=
  (windows.filterMap (fun w => if w.type == WindowType.Dock then w.strut else none)).filter
    (fun st => rect.contains_point st.center.1 st.center.2)

theorem update_workspace_avoid_list_spec (s : State) :
    (update_workspace_avoid_list s).windows = s.windows ∧
    ∀ ws' ∈ (update_workspace_avoid_list s).workspaces,
      ws'.avoid = dock_struts_in s.windows ws'.xyhw := by
  refine ⟨rfl, ?_⟩
  intro ws' hmem
  unfold update_workspace_avoid_list at hmem
  simp only [List.mem_map] at hmem
  obtain ⟨ws, _, rfl⟩ := hmem
  rfl

theorem focus_window_fields (s : State) (h : Nat) :
    (s.focus_window h).windows = s.windows ∧ (s.focus_window h).workspaces = s.workspaces := by
  obtain ⟨H, T, A, e⟩ := focus_window_split s h
  rw [e]
  exact ⟨rfl, rfl⟩

theorem focus_window_windows (s : State) (h : Nat) :
    (s.focus_window h).windows = s.windows :=
  (focus_window_fields s h).1

theorem focus_window_workspaces (s : State) (h : Nat) :
    (s.focus_window h).workspaces = s.workspaces :=
  (focus_window_fields s h).2

theorem update_workspace_avoid_list_windows (s : State) :
    (update_workspace_avoid_list s).windows = s.windows := rfl

/-- The state right after the destroyed handler has purged the handle: the
pre-scan reorder, the `tags_last_window` purge and the window-list
removal. -/
def destroyed_removed (s : State) (h : Nat) : State :=
  let s1 := focused_workspace_to_back s
  { s1 with
    focus_manager :=
      { s1.focus_manager with
        tags_last_window := s1.focus_manager.tags_last_window.filter (fun p => !(p.2 == h)) }
    windows := s1.windows.filter (fun x => !(x.handle == h)) }

theorem destroyed_found_fields (s : State) (h : Nat) (w : Window)
    (hf : (focused_workspace_to_back s).windows.find? (fun x => x.handle == h) = some w) :
    (window_destroyed_handler s h).1 = w.visible ∧
    (window_destroyed_handler s h).2.windows = (destroyed_removed s h).windows ∧
    (window_destroyed_handler s h).2.workspaces
      = (update_workspace_avoid_list (destroyed_removed s h)).workspaces := by
  unfold window_destroyed_handler
  rcases hgp : get_next_or_previous_handle s h with ⟨nh, s1⟩
  have hs1 : s1 = focused_workspace_to_back s := by
    rw [← get_next_or_previous_state s h, hgp]
  subst hs1
  dsimp only
  rw [hf]
  dsimp only
  refine ⟨rfl, ?_, ?_⟩ <;> (repeat' split) <;>
    first
    | rfl
    | simp [focus_window_windows, focus_window_workspaces, State.push_action,
        destroyed_removed, update_workspace_avoid_list_windows]

theorem changed_dock_fields (s : State) (c : WindowChange) (w : Window)
    (hf : s.windows.find? (fun x => x.handle == c.handle) = some w)
    (hd : w.type = WindowType.Dock) :
    (window_changed_handler s c).2.windows = s.windows ∧
    (window_changed_handler s c).2.workspaces
      = (update_workspace_avoid_list s).workspaces := by
  unfold window_changed_handler
  simp only [hf, hd]
  constructor <;> (repeat' split) <;>
    first
    | rfl
    | simp_all [State.sort_windows, State.update_static, State.push_action,
        update_workspace_avoid_list_windows]

theorem mem_of_mem_dock_struts (windows : List Window) (rect : Xyhw) (st : Xyhw)
    (hs : st ∈ dock_struts_in windows rect) :
    ∃ x ∈ windows, x.type = WindowType.Dock ∧ x.strut = some st := by
  unfold dock_struts_in at hs
  have hmem := List.mem_of_mem_filter hs
  rw [List.mem_filterMap] at hmem
  obtain ⟨x, hx, hfx⟩ := hmem
  by_cases hty : x.type = WindowType.Dock
  · exact ⟨x, hx, hty, by simpa [hty] using hfx⟩
  · simp [hty] at hfx

theorem mem_of_mem_to_back (s : State) (x : Window)
    (hx : x ∈ (focused_workspace_to_back s).windows) : x ∈ s.windows := by
  unfold focused_workspace_to_back at hx
  cases hws : s.focus_manager.workspace s.workspaces with
  | none => rw [hws] at hx; exact hx
  | some ws =>
    rw [hws] at hx
    rcases List.mem_append.1 hx with hx' | hx' <;> exact List.mem_of_mem_filter hx'

/-- C4: after every avoid-list recomputation — both the one the destroyed
handler runs after removal and the one a Dock window's change event runs —
every workspace's avoid list is exactly the struts of the Dock windows in
the (post-handler) window list whose center point lies inside that
workspace's rectangle; consequently destroying the only Dock window carrying
a given strut leaves it in no workspace's avoid list. -/
theorem avoid_list_recomputation :
    (∀ (s : State) (h : Nat) (w : Window),
      (focused_workspace_to_back s).windows.find? (fun x => x.handle == h) = some w →
      ∀ ws' ∈ (window_destroyed_handler s h).2.workspaces,
        ws'.avoid = dock_struts_in (window_destroyed_handler s h).2.windows ws'.xyhw) ∧
    (∀ (s : State) (c : WindowChange) (w : Window),
      s.windows.find? (fun x => x.handle == c.handle) = some w →
      w.type = WindowType.Dock →
      ∀ ws' ∈ (window_changed_handler s c).2.workspaces,
        ws'.avoid = dock_struts_in (window_changed_handler s c).2.windows ws'.xyhw) ∧
    (∀ (s : State) (h : Nat) (w : Window) (st : Xyhw),
      (focused_workspace_to_back s).windows.find? (fun x => x.handle == h) = some w →
      (∀ x ∈ s.windows, x.handle ≠ h → x.type = WindowType.Dock → x.strut ≠ some st) →
      ∀ ws' ∈ (window_destroyed_handler s h).2.workspaces, st ∉ ws'.avoid) := by
  have main : ∀ (s : State) (h : Nat) (w : Window),
      (focused_workspace_to_back s).windows.find? (fun x => x.handle == h) = some w →
      ∀ ws' ∈ (window_destroyed_handler s h).2.workspaces,
        ws'.avoid = dock_struts_in (window_destroyed_handler s h).2.windows ws'.xyhw := by
    intro s h w hf ws' hmem
    obtain ⟨-, hwin, hwss⟩ := destroyed_found_fields s h w hf
    rw [hwss] at hmem
    rw [hwin]
    exact (update_workspace_avoid_list_spec (destroyed_removed s h)).2 ws' hmem
  refine ⟨main, ?_, ?_⟩
  · intro s c w hf hd ws' hmem
    obtain ⟨hwin, hwss⟩ := changed_dock_fields s c w hf hd
    rw [hwss] at hmem
    rw [hwin]
    exact (update_workspace_avoid_list_spec s).2 ws' hmem
  · intro s h w st hf hnone ws' hmem hin
    rw [main s h w hf ws' hmem] at hin
    obtain ⟨x, hx, hty, hst⟩ := mem_of_mem_dock_struts _ _ _ hin
    obtain ⟨-, hwin, -⟩ := destroyed_found_fields s h w hf
    rw [hwin] at hx
    have hx' : x ∈ (focused_workspace_to_back s).windows.filter (fun y => !(y.handle == h)) := hx
    have hxs : x ∈ s.windows := mem_of_mem_to_back s x (List.mem_of_mem_filter hx')
    have hne : x.handle ≠ h := by
      have := List.of_mem_filter hx'
      simpa using this
    exact hnone x hxs hne hty hst

/-- A Dock window whose strut's center lies inside `test_workspace`. -/
def dock_window : Window :=
  { Window.mk_new 5 with
    type := WindowType.Dock
    tag := some 1
    strut := some ⟨0, 0, 2000, 20⟩ }

def second_workspace : Workspace :=
  { tag := some 2
    xyhw := ⟨2000, 0, 2000, 1000⟩
    layout := Layout.MainAndVertStack
    margin_multiplier := 1
    avoid := [] }

def dock_state : State :=
  { mk_state InsertBehavior.Bottom [dock_window] [] [] [] with
    workspaces := [test_workspace, second_workspace] }

def dock_change : WindowChange :=
  ⟨5, none, some ⟨0, 0, 2000, 20⟩, fun _ _ => true⟩

theorem avoid_list_recomputation_witness :
    test_workspace.avoid
      = dock_struts_in (window_destroyed_handler dock_state 5).2.windows
          test_workspace.xyhw ∧
    ({ test_workspace with avoid := [⟨0, 0, 2000, 20⟩] } : Workspace).avoid
      = dock_struts_in (window_changed_handler dock_state dock_change).2.windows
          ({ test_workspace with avoid := [⟨0, 0, 2000, 20⟩] } : Workspace).xyhw ∧
    (⟨0, 0, 2000, 20⟩ : Xyhw) ∉ test_workspace.avoid :=
  ⟨avoid_list_recomputation.1 dock_state 5 dock_window (by decide) test_workspace (by decide),
   avoid_list_recomputation.2.1 dock_state dock_change dock_window (by decide) (by decide)
     { test_workspace with avoid := [⟨0, 0, 2000, 20⟩] } (by decide),
   avoid_list_recomputation.2.2 dock_state 5 dock_window ⟨0, 0, 2000, 20⟩ (by decide)
     (by decide) test_workspace (by decide)⟩

theorem to_back_focus_manager (s : State) :
    (focused_workspace_to_back s).focus_manager = s.focus_manager := by
  unfold focused_workspace_to_back
  cases s.focus_manager.workspace s.workspaces <;> rfl

theorem to_back_actions (s : State) :
    (focused_workspace_to_back s).actions = s.actions := by
  unfold focused_workspace_to_back
  cases s.focus_manager.workspace s.workspaces <;> rfl

theorem update_workspace_avoid_list_fm (s : State) :
    (update_workspace_avoid_list s).focus_manager = s.focus_manager := rfl

theorem update_workspace_avoid_list_actions (s : State) :
    (update_workspace_avoid_list s).actions = s.actions := rfl

theorem destroyed_removed_history (s : State) (h : Nat) :
    (destroyed_removed s h).focus_manager.window_history
      = s.focus_manager.window_history := by
  unfold destroyed_removed
  rw [show ({ focused_workspace_to_back s with
      focus_manager := { (focused_workspace_to_back s).focus_manager with
        tags_last_window := (focused_workspace_to_back s).focus_manager.tags_last_window.filter
          (fun p => !(p.2 == h)) }
      windows := (focused_workspace_to_back s).windows.filter
        (fun x => !(x.handle == h)) } : State).focus_manager.window_history
    = (focused_workspace_to_back s).focus_manager.window_history from rfl]
  rw [to_back_focus_manager]

theorem destroyed_removed_behaviour (s : State) (h : Nat) :
    (destroyed_removed s h).focus_manager.behaviour = s.focus_manager.behaviour := by
  unfold destroyed_removed
  rw [show ({ focused_workspace_to_back s with
      focus_manager := { (focused_workspace_to_back s).focus_manager with
        tags_last_window := (focused_workspace_to_back s).focus_manager.tags_last_window.filter
          (fun p => !(p.2 == h)) }
      windows := (focused_workspace_to_back s).windows.filter
        (fun x => !(x.handle == h)) } : State).focus_manager.behaviour
    = (focused_workspace_to_back s).focus_manager.behaviour from rfl]
  rw [to_back_focus_manager]

theorem destroyed_removed_sloppy_follow (s : State) (h : Nat) :
    (destroyed_removed s h).focus_manager.sloppy_mouse_follows_focus
      = s.focus_manager.sloppy_mouse_follows_focus := by
  unfold destroyed_removed
  rw [show ({ focused_workspace_to_back s with
      focus_manager := { (focused_workspace_to_back s).focus_manager with
        tags_last_window := (focused_workspace_to_back s).focus_manager.tags_last_window.filter
          (fun p => !(p.2 == h)) }
      windows := (focused_workspace_to_back s).windows.filter
        (fun x => !(x.handle == h)) } : State).focus_manager.sloppy_mouse_follows_focus
    = (focused_workspace_to_back s).focus_manager.sloppy_mouse_follows_focus from rfl]
  rw [to_back_focus_manager]

theorem destroyed_removed_actions (s : State) (h : Nat) :
    (destroyed_removed s h).actions = s.actions := by
  unfold destroyed_removed
  rw [show ({ focused_workspace_to_back s with
      focus_manager := { (focused_workspace_to_back s).focus_manager with
        tags_last_window := (focused_workspace_to_back s).focus_manager.tags_last_window.filter
          (fun p => !(p.2 == h)) }
      windows := (focused_workspace_to_back s).windows.filter
        (fun x => !(x.handle == h)) } : State).actions
    = (focused_workspace_to_back s).actions from rfl]
  rw [to_back_actions]

theorem destroyed_found_full (s : State) (h : Nat) (w : Window)
    (hf : (focused_workspace_to_back s).windows.find? (fun x => x.handle == h) = some w) :
    window_destroyed_handler s h =
      (w.visible,
        if (update_workspace_avoid_list (destroyed_removed s h)).focus_manager.window_history.head?
            == some (some h) then
          if (update_workspace_avoid_list (destroyed_removed s h)).focus_manager.behaviour.is_sloppy
              && (update_workspace_avoid_list
                (destroyed_removed s h)).focus_manager.sloppy_mouse_follows_focus then
            (update_workspace_avoid_list (destroyed_removed s h)).push_action
              DisplayAction.FocusWindowUnderCursor
          else
            match find_transient_parent
                (update_workspace_avoid_list (destroyed_removed s h)).windows w.transient with
            | some parent =>
              (update_workspace_avoid_list (destroyed_removed s h)).focus_window parent.handle
            | none =>
              match (get_next_or_previous_handle s h).1 with
              | some nh =>
                (update_workspace_avoid_list (destroyed_removed s h)).focus_window nh
              | none =>
                let s3' := (update_workspace_avoid_list (destroyed_removed s h)).push_action
                  (DisplayAction.Unfocus (some h) w.floating_pred)
                { s3' with
                  focus_manager :=
                    { s3'.focus_manager with
                      window_history := none :: s3'.focus_manager.window_history } }
        else update_workspace_avoid_list (destroyed_removed s h)) := by
  unfold window_destroyed_handler
  rcases hgp : get_next_or_previous_handle s h with ⟨nh, s1⟩
  have hs1 : s1 = focused_workspace_to_back s := by
    rw [← get_next_or_previous_state s h, hgp]
  subst hs1
  dsimp only
  rw [hf]
  rfl

theorem find_transient_parent_fuel_self (windows : List Window) :
    ∀ (n : Nat) (t : Nat) (r : Window),
      find_transient_parent_fuel windows n t = some (some r) →
      windows.find? (fun x => x.handle == r.handle) = some r := by
  intro n
  induction n with
  | zero => intro t r hr; simp [find_transient_parent_fuel] at hr
  | succ n ih =>
    intro t r hr
    unfold find_transient_parent_fuel at hr
    cases hnext : next_transient windows t with
    | some u => rw [hnext] at hr; exact ih u r hr
    | none =>
      rw [hnext] at hr
      have hfind : windows.find? (fun x => x.handle == t) = some r :=
        Option.some.inj hr
      have hpred := List.find?_some hfind
      have ht : r.handle = t := by simpa using hpred
      rw [← ht] at hfind
      exact hfind

theorem find_transient_parent_self (windows : List Window) (tr : Option Nat) (r : Window)
    (hr : find_transient_parent windows tr = some r) :
    windows.find? (fun x => x.handle == r.handle) = some r := by
  unfold find_transient_parent at hr
  cases tr with
  | none => simp at hr
  | some t =>
    dsimp only at hr
    cases hfu : find_transient_parent_fuel windows (windows.length + 1) t with
    | none => rw [hfu] at hr; simp at hr
    | some o =>
      rw [hfu] at hr
      simp at hr
      subst hr
      exact find_transient_parent_fuel_self windows _ t r hfu

theorem focus_window_history_front (s : State) (k : Nat) (w' : Window)
    (hfind : s.windows.find? (fun x => x.handle == k) = some w') :
    (s.focus_window k).focus_manager.window_history
      = some k :: s.focus_manager.window_history := by
  unfold State.focus_window
  rw [hfind]

/-- C3: when the destroyed handle is at the front of the focus history and
sloppy-focus-with-mouse-follow is off: (i) a transient parent resolvable in
the post-removal list receives focus (it becomes the new focus-history
front); (ii) with no resolvable parent and no successor on the focused
workspace, an Unfocus action carrying the removed window's former floating
flag is queued and a `none` entry is pushed onto the history front. -/
theorem destroy_restores_focus (s : State) (h : Nat) (w : Window)
    (hf : (focused_workspace_to_back s).windows.find? (fun x => x.handle == h) = some w)
    (hfoc : s.focus_manager.window_history.head? = some (some h))
    (hns : (s.focus_manager.behaviour.is_sloppy
        && s.focus_manager.sloppy_mouse_follows_focus) = false) :
    (∀ parent, find_transient_parent (destroyed_removed s h).windows w.transient = some parent →
      (window_destroyed_handler s h).2.focus_manager.window_history.head?
        = some (some parent.handle)) ∧
    (find_transient_parent (destroyed_removed s h).windows w.transient = none →
      (get_next_or_previous_handle s h).1 = none →
      (window_destroyed_handler s h).2.actions
          = s.actions ++ [DisplayAction.Unfocus (some h) w.floating_pred] ∧
      (window_destroyed_handler s h).2.focus_manager.window_history
          = none :: s.focus_manager.window_history) := by
  have hhist : (update_workspace_avoid_list (destroyed_removed s h)).focus_manager.window_history
      = s.focus_manager.window_history := by
    rw [update_workspace_avoid_list_fm, destroyed_removed_history]
  have hbeh : (update_workspace_avoid_list (destroyed_removed s h)).focus_manager.behaviour
      = s.focus_manager.behaviour := by
    rw [update_workspace_avoid_list_fm, destroyed_removed_behaviour]
  have hslop : (update_workspace_avoid_list
      (destroyed_removed s h)).focus_manager.sloppy_mouse_follows_focus
      = s.focus_manager.sloppy_mouse_follows_focus := by
    rw [update_workspace_avoid_list_fm, destroyed_removed_sloppy_follow]
  have hacts : (update_workspace_avoid_list (destroyed_removed s h)).actions = s.actions := by
    rw [update_workspace_avoid_list_actions, destroyed_removed_actions]
  rw [destroyed_found_full s h w hf]
  simp only [hhist, hbeh, hslop, hfoc, hns, beq_self_eq_true, if_true,
    Bool.false_eq_true, if_false, update_workspace_avoid_list_windows]
  constructor
  · intro parent hp
    rw [hp]
    have hfind3 : (update_workspace_avoid_list (destroyed_removed s h)).windows.find?
        (fun x => x.handle == parent.handle) = some parent := by
      rw [update_workspace_avoid_list_windows]
      exact find_transient_parent_self _ _ _ hp
    rw [focus_window_history_front _ _ _ hfind3]
    rfl
  · intro hp hsucc
    rw [hp, hsucc]
    constructor
    · simp [State.push_action, hacts]
    · simp [State.push_action, hhist]

def c3_fm : FocusManager :=
  { behaviour := FocusBehaviour.ClickTo
    focus_new_windows := false
    sloppy_mouse_follows_focus := true
    window_history := [some 1]
    workspace_history := [0]
    tags_last_window := [] }

def c3_child : Window := { Window.mk_new 1 with tag := some 1, transient := some 2 }

def c3_mid : Window := { Window.mk_new 3 with tag := some 1 }

def c3_parent : Window := { Window.mk_new 2 with tag := some 1 }

/-- Destroy scenario (i): the focused window 1 is transient for window 2,
and window 3 is the sibling that would otherwise be the successor. -/
def c3_state_i : State :=
  { windows := [c3_child, c3_mid, c3_parent]
    workspaces := [test_workspace]
    focus_manager := c3_fm
    actions := []
    insert_behavior := InsertBehavior.Bottom
    active_scratchpads := []
    scratchpads := []
    nsp_tag := none }

def c3_solo : Window := { Window.mk_new 1 with tag := some 1 }

/-- Destroy scenario (ii): the focused window 1 is alone on its tag. -/
def c3_state_ii : State :=
  { windows := [c3_solo]
    workspaces := [test_workspace]
    focus_manager := c3_fm
    actions := []
    insert_behavior := InsertBehavior.Bottom
    active_scratchpads := []
    scratchpads := []
    nsp_tag := none }

theorem destroy_restores_focus_witness :
    (window_destroyed_handler c3_state_i 1).2.focus_manager.window_history.head?
        = some (some 2) ∧
    (window_destroyed_handler c3_state_ii 1).2.actions
        = [DisplayAction.Unfocus (some 1) false] ∧
    (window_destroyed_handler c3_state_ii 1).2.focus_manager.window_history
        = [none, some 1] :=
  ⟨(destroy_restores_focus c3_state_i 1 c3_child (by decide) (by decide) (by decide)).1
      c3_parent (by decide),
   ((destroy_restores_focus c3_state_ii 1 c3_solo (by decide) (by decide) (by decide)).2
      (by decide) (by decide)).1,
   ((destroy_restores_focus c3_state_ii 1 c3_solo (by decide) (by decide) (by decide)).2
      (by decide) (by decide)).2⟩

theorem calculated_after_set_exact (w : Window) (r : Xyhw) (hfl : w.is_floating = true) :
    (w.set_floating_exact r).calculated_xyhw = r := by
  simp [Window.set_floating_exact, Window.set_floating_offsets, Window.calculated_xyhw,
    Window.floating_pred, hfl, Xyhw.add, Xyhw.sub]
  try cases r
  try simp [Xyhw.mk.injEq]
  try omega

theorem contains_center_halfed (r : Xyhw) (hw : 0 ≤ r.w) (hh : 0 ≤ r.h) :
    r.contains_xyhw r.center_halfed = true := by
  simp only [Xyhw.contains_xyhw, Xyhw.contains_point, Xyhw.center_halfed,
    Bool.and_eq_true, decide_eq_true_eq]
  have e1 : r.w.tdiv 4 = r.w / 4 := Int.tdiv_eq_ediv hw (by norm_num)
  have e2 : r.w.tdiv 2 = r.w / 2 := Int.tdiv_eq_ediv hw (by norm_num)
  have e3 : r.h.tdiv 4 = r.h / 4 := Int.tdiv_eq_ediv hh (by norm_num)
  have e4 : r.h.tdiv 2 = r.h / 2 := Int.tdiv_eq_ediv hh (by norm_num)
  rw [e1, e2, e3, e4]
  omega

/-- C6: the floating rectangle `set_relative_floating` computes (the wired
variant, used by the creation path for a non-Utility transient child with
`outer` set to the resolved parent's exact rectangle) is always fully
contained in the workspace rectangle, for any parent rectangle whatsoever:
an already-fitting requested rectangle is kept, the centering attempt
against `outer` is re-validated for containment, and the half-sized centered
fallback is contained by construction. -/
theorem transient_placement_contained (w : Window) (ws : Workspace) (outer : Xyhw)
    (hw : 0 ≤ ws.xyhw.w) (hh : 0 ≤ ws.xyhw.h) :
    ws.xyhw.contains_xyhw ((set_relative_floating w ws outer).calculated_xyhw) = true := by
  unfold set_relative_floating
  have hfl : (({ w.set_floating true with normal := ws.xyhw } : Window)).is_floating = true := rfl
  rw [calculated_after_set_exact _ _ hfl]
  cases hreq : ({ w.set_floating true with normal := ws.xyhw } : Window).requested with
  | none => exact contains_center_halfed ws.xyhw hw hh
  | some requested =>
    by_cases h1 : ws.xyhw.contains_xyhw requested = true
    · simp [h1]
    · simp only [h1, if_false, Bool.not_eq_true]
      by_cases h2 : ws.xyhw.contains_xyhw
          (requested.center_relative outer
            ({ w.set_floating true with normal := ws.xyhw } : Window).border) = true
      · simp [h2]
      · simp only [h2, Bool.not_eq_true, if_false]
        simp [h1, h2]
        exact contains_center_halfed ws.xyhw hw hh

theorem transient_placement_contained_witness :
    test_workspace.xyhw.contains_xyhw
      ((set_relative_floating
          { Window.mk_new 7 with requested := some ⟨5000, 5000, 100, 100⟩ }
          test_workspace ⟨9000, 9000, 50, 50⟩).calculated_xyhw) = true :=
  transient_placement_contained
    { Window.mk_new 7 with requested := some ⟨5000, 5000, 100, 100⟩ }
    test_workspace ⟨9000, 9000, 50, 50⟩ (by decide) (by decide)

theorem find?_update_first (p : Window → Bool) (f : Window → Window) :
    ∀ (l : List Window) (w : Window), l.find? p = some w → p (f w) = true →
      (update_first_window l p f).find? p = some (f w) := by
  intro l
  induction l with
  | nil => intro w hw hpf; simp at hw
  | cons a t ih =>
    intro w hw hpf
    by_cases hpa : p a = true
    · rw [List.find?_cons_of_pos _ hpa] at hw
      injection hw with hw
      subst hw
      unfold update_first_window
      rw [if_pos hpa]
      exact List.find?_cons_of_pos _ hpf
    · have hpa' : ¬ p a := by simpa using hpa
      rw [List.find?_cons_of_neg _ hpa'] at hw
      unfold update_first_window
      rw [if_neg hpa']
      rw [List.find?_cons_of_neg _ hpa']
      exact ih w hw hpf

/-- The effective rectangle of the window right after the move offsets have
been applied. -/
def moved_loc (w : Window) (dx dy : Int) : Xyhw :=
  (process_window w dx dy).calculated_xyhw

/-- The state update the move handler performs: the first window matching
the handle is replaced by `w2`. -/
def move_result (s : State) (h : Nat) (w2 : Window) : State :=
  { s with
    windows := update_first_window s.windows (fun x => x.handle == h) (fun _ => w2) }

theorem move_handler_characterized (s : State) (h : Nat) (dx dy : Int) (w : Window)
    (ws : Workspace)
    (hfind : s.windows.find? (fun x => x.handle == h) = some w)
    (hmf : (process_window w dx dy).must_float = false)
    (hws : s.workspaces.find? (fun ws' =>
        ws'.contains_point (process_window w dx dy).calculated_xyhw.center.1
          (process_window w dx dy).calculated_xyhw.center.2) = some ws) :
    window_move_handler false s h dx dy =
      (if [(process_window w dx dy).calculated_xyhw.y - ws.xyhw.y,
           (process_window w dx dy).calculated_xyhw.y + (process_window w dx dy).height
             - (ws.xyhw.y + ws.xyhw.h),
           (process_window w dx dy).calculated_xyhw.x - ws.xyhw.x,
           (process_window w dx dy).calculated_xyhw.x + (process_window w dx dy).width
             - (ws.xyhw.x + ws.xyhw.w)].any (fun d => |d| < 10) then
        (true,
          (move_result s h (snap_window_to_workspace (process_window w dx dy) ws)).sort_windows)
      else
        (true, move_result s h (process_window w dx dy))) := by
  unfold window_move_handler snap_to_workspace should_snap move_result
  rw [hfind]
  dsimp only
  simp only [Bool.false_eq_true, if_false]
  rw [hws, hmf]
  dsimp only
  simp only [Bool.false_eq_true, if_false]
  split <;> rfl

theorem snap_sets_exact (w1 : Window) (ws : Workspace) (hfl : w1.is_floating = true) :
    (snap_window_to_workspace w1 ws).calculated_xyhw =
      { w1.calculated_xyhw with
        x :=
          if |w1.calculated_xyhw.x - ws.xyhw.x| < 10 then ws.xyhw.x
          else if |w1.calculated_xyhw.x + w1.calculated_xyhw.w
              - (ws.xyhw.x + ws.xyhw.w)| < 10 then
            ws.xyhw.x + ws.xyhw.w - w1.calculated_xyhw.w
          else w1.calculated_xyhw.x
        y :=
          if |w1.calculated_xyhw.y - ws.xyhw.y| < 10 then ws.xyhw.y
          else if |w1.calculated_xyhw.y + w1.calculated_xyhw.h
              - (ws.xyhw.y + ws.xyhw.h)| < 10 then
            ws.xyhw.y + ws.xyhw.h - w1.calculated_xyhw.h
          else w1.calculated_xyhw.y } := by
  unfold snap_window_to_workspace
  rw [calculated_after_set_exact _ _ hfl]

theorem snap_handle (w1 : Window) (ws : Workspace) :
    (snap_window_to_workspace w1 ws).handle = w1.handle := rfl

theorem process_window_handle (w : Window) (dx dy : Int) :
    (process_window w dx dy).handle = w.handle := rfl

theorem sort_windows_windows (s : State) : s.sort_windows.windows = s.windows := rfl

theorem move_result_windows (s : State) (h : Nat) (w2 : Window) :
    (move_result s h w2).windows
      = update_first_window s.windows (fun x => x.handle == h) (fun _ => w2) := rfl

/-- C9: with snapping enabled, a non-forced-floating floating window whose
post-move rectangle has its center inside a workspace snaps exactly to any
workspace edge at distance at most 9 (the closer parallel edge taking
priority), and when every edge distance is at least 11 no snap happens: the
state change is exactly the offset update. -/
theorem snap_threshold (s : State) (h : Nat) (dx dy : Int) (w : Window) (ws : Workspace)
    (L : Xyhw)
    (hfind : s.windows.find? (fun x => x.handle == h) = some w)
    (hmf : (process_window w dx dy).must_float = false)
    (hfl : (process_window w dx dy).is_floating = true)
    (hL : (process_window w dx dy).calculated_xyhw = L)
    (hws : s.workspaces.find? (fun ws' =>
        ws'.contains_point (process_window w dx dy).calculated_xyhw.center.1
          (process_window w dx dy).calculated_xyhw.center.2) = some ws) :
    (window_move_handler false s h dx dy).1 = true ∧
    (|L.y - ws.xyhw.y| ≤ 9 →
      ((window_move_handler false s h dx dy).2.windows.find? (fun x => x.handle == h)).map
        (fun x => x.calculated_xyhw.y) = some ws.xyhw.y) ∧
    (10 ≤ |L.y - ws.xyhw.y| → |L.y + L.h - (ws.xyhw.y + ws.xyhw.h)| ≤ 9 →
      ((window_move_handler false s h dx dy).2.windows.find? (fun x => x.handle == h)).map
        (fun x => x.calculated_xyhw.y + x.calculated_xyhw.h)
        = some (ws.xyhw.y + ws.xyhw.h)) ∧
    (|L.x - ws.xyhw.x| ≤ 9 →
      ((window_move_handler false s h dx dy).2.windows.find? (fun x => x.handle == h)).map
        (fun x => x.calculated_xyhw.x) = some ws.xyhw.x) ∧
    (10 ≤ |L.x - ws.xyhw.x| → |L.x + L.w - (ws.xyhw.x + ws.xyhw.w)| ≤ 9 →
      ((window_move_handler false s h dx dy).2.windows.find? (fun x => x.handle == h)).map
        (fun x => x.calculated_xyhw.x + x.calculated_xyhw.w)
        = some (ws.xyhw.x + ws.xyhw.w)) ∧
    (11 ≤ |L.y - ws.xyhw.y| → 11 ≤ |L.y + L.h - (ws.xyhw.y + ws.xyhw.h)| →
      11 ≤ |L.x - ws.xyhw.x| → 11 ≤ |L.x + L.w - (ws.xyhw.x + ws.xyhw.w)| →
      (window_move_handler false s h dx dy).2 = move_result s h (process_window w dx dy)) := by
  have hh' : (process_window w dx dy).height = L.h := by
    unfold Window.height
    rw [hL]
  have hw' : (process_window w dx dy).width = L.w := by
    unfold Window.width
    rw [hL]
  have hbeq : (w.handle == h) = true := by
    have := List.find?_some hfind
    simpa using this
  have hupd_snap := find?_update_first (fun x => x.handle == h)
    (fun _ => snap_window_to_workspace (process_window w dx dy) ws) s.windows w hfind
    (by simp [snap_handle, process_window_handle, hbeq])
  have hupd_move := find?_update_first (fun x => x.handle == h)
    (fun _ => process_window w dx dy) s.windows w hfind
    (by simp [process_window_handle, hbeq])
  have hsnapcalc := snap_sets_exact (process_window w dx dy) ws hfl
  rw [hL] at hsnapcalc
  rw [move_handler_characterized s h dx dy w ws hfind hmf hws]
  rw [hL, hh', hw']
  refine ⟨?_, ?_, ?_, ?_, ?_, ?_⟩
  · split <;> rfl
  · intro hy
    have hA : ([L.y - ws.xyhw.y, L.y + L.h - (ws.xyhw.y + ws.xyhw.h), L.x - ws.xyhw.x,
        L.x + L.w - (ws.xyhw.x + ws.xyhw.w)].any (fun d => |d| < 10)) = true := by
      simp only [List.any_cons, List.any_nil, Bool.or_eq_true, decide_eq_true_eq]
      exact Or.inl (by omega)
    rw [hA]
    simp only [if_true, sort_windows_windows, move_result_windows, hupd_snap, Option.map_some',
      hsnapcalc]
    rw [if_pos (by omega : |L.y - ws.xyhw.y| < 10)]
  · intro hy1 hy2
    have hA : ([L.y - ws.xyhw.y, L.y + L.h - (ws.xyhw.y + ws.xyhw.h), L.x - ws.xyhw.x,
        L.x + L.w - (ws.xyhw.x + ws.xyhw.w)].any (fun d => |d| < 10)) = true := by
      simp only [List.any_cons, List.any_nil, Bool.or_eq_true, decide_eq_true_eq]
      exact Or.inr (Or.inl (by omega))
    rw [hA]
    simp only [if_true, sort_windows_windows, move_result_windows, hupd_snap, Option.map_some',
      hsnapcalc]
    rw [if_neg (by omega : ¬ |L.y - ws.xyhw.y| < 10),
      if_pos (by omega : |L.y + L.h - (ws.xyhw.y + ws.xyhw.h)| < 10)]
    simp
  · intro hx
    have hA : ([L.y - ws.xyhw.y, L.y + L.h - (ws.xyhw.y + ws.xyhw.h), L.x - ws.xyhw.x,
        L.x + L.w - (ws.xyhw.x + ws.xyhw.w)].any (fun d => |d| < 10)) = true := by
      simp only [List.any_cons, List.any_nil, Bool.or_eq_true, decide_eq_true_eq]
      exact Or.inr (Or.inr (Or.inl (by omega)))
    rw [hA]
    simp only [if_true, sort_windows_windows, move_result_windows, hupd_snap, Option.map_some',
      hsnapcalc]
    rw [if_pos (by omega : |L.x - ws.xyhw.x| < 10)]
  · intro hx1 hx2
    have hA : ([L.y - ws.xyhw.y, L.y + L.h - (ws.xyhw.y + ws.xyhw.h), L.x - ws.xyhw.x,
        L.x + L.w - (ws.xyhw.x + ws.xyhw.w)].any (fun d => |d| < 10)) = true := by
      simp only [List.any_cons, List.any_nil, Bool.or_eq_true, decide_eq_true_eq]
      exact Or.inr (Or.inr (Or.inr (Or.inl (by omega))))
    rw [hA]
    simp only [if_true, sort_windows_windows, move_result_windows, hupd_snap, Option.map_some',
      hsnapcalc]
    rw [if_neg (by omega : ¬ |L.x - ws.xyhw.x| < 10),
      if_pos (by omega : |L.x + L.w - (ws.xyhw.x + ws.xyhw.w)| < 10)]
    simp
  · intro h1 h2 h3 h4
    have hA : ([L.y - ws.xyhw.y, L.y + L.h - (ws.xyhw.y + ws.xyhw.h), L.x - ws.xyhw.x,
        L.x + L.w - (ws.xyhw.x + ws.xyhw.w)].any (fun d => |d| < 10)) = false := by
      simp only [List.any_cons, List.any_nil, Bool.or_false, Bool.or_eq_false_iff,
        decide_eq_false_iff_not]
      omega
    rw [hA]
    simp

/-- A floating window whose post-move rectangle is (5, 300, 400, 300): its
left edge is 5 px from the workspace's left edge. -/
def snap_window_a : Window :=
  { Window.mk_new 1 with
    tag := some 1
    is_floating := true
    normal := ⟨0, 0, 400, 300⟩
    start_loc := some ⟨5, 300, 0, 0⟩ }

def snap_state_a : State := mk_state InsertBehavior.Bottom [snap_window_a] [] [] []

/-- A floating window whose post-move rectangle is (500, 500, 300, 200):
every edge is at least 11 px away from the matching workspace edge. -/
def snap_window_b : Window :=
  { Window.mk_new 1 with
    tag := some 1
    is_floating := true
    normal := ⟨0, 0, 300, 200⟩
    start_loc := some ⟨500, 500, 0, 0⟩ }

def snap_state_b : State := mk_state InsertBehavior.Bottom [snap_window_b] [] [] []

theorem snap_threshold_witness :
    (((window_move_handler false snap_state_a 1 0 0).2.windows.find?
        (fun x => x.handle == 1)).map (fun x => x.calculated_xyhw.x) = some 0) ∧
    ((window_move_handler false snap_state_b 1 0 0).2
      = move_result snap_state_b 1 (process_window snap_window_b 0 0)) :=
  ⟨(snap_threshold snap_state_a 1 0 0 snap_window_a test_workspace ⟨5, 300, 400, 300⟩
      (by decide) (by decide) (by decide) (by decide) (by decide)).2.2.2.1 (by decide),
   (snap_threshold snap_state_b 1 0 0 snap_window_b test_workspace ⟨500, 500, 300, 200⟩
      (by decide) (by decide) (by decide) (by decide) (by decide)).2.2.2.2.2
      (by decide) (by decide) (by decide) (by decide)⟩

/-- The k-fold iterate of the transient back-reference step, the reference
notion the chain walk is measured against. -/
def next_transient_iter (windows : List Window) : Nat → Nat → Option Nat
  | 0, t => some t
  | k + 1, t => (next_transient windows t).bind (next_transient_iter windows k)

/-- The transient relation has no cycle: no nonempty chain of transient
back-references returns to its starting handle. -/
def TransientAcyclic (windows : List Window) : Prop :=
  ∀ (t k : Nat), k ≠ 0 → next_transient_iter windows k t ≠ some t

theorem next_transient_iter_succ (windows : List Window) (k : Nat) :
    ∀ t, next_transient_iter windows (k + 1) t
      = (next_transient_iter windows k t).bind (next_transient windows) := by
  induction k with
  | zero =>
    intro t
    cases hn : next_transient windows t <;> simp [next_transient_iter, hn]
  | succ k ih =>
    intro t
    cases hn : next_transient windows t with
    | none => simp [next_transient_iter, hn]
    | some u => simpa [next_transient_iter, hn] using ih u

theorem next_transient_iter_add (windows : List Window) (a : Nat) :
    ∀ (b : Nat) (t : Nat), next_transient_iter windows (a + b) t
      = (next_transient_iter windows a t).bind (next_transient_iter windows b) := by
  induction a with
  | zero => intro b t; simp [next_transient_iter, Nat.zero_add]
  | succ a ih =>
    intro b t
    have hrw : a + 1 + b = (a + b) + 1 := by omega
    rw [hrw]
    cases hn : next_transient windows t with
    | none => simp [next_transient_iter, hn]
    | some u => simpa [next_transient_iter, hn] using ih b u

theorem fuel_none_iter_isSome (windows : List Window) :
    ∀ (n : Nat) (t : Nat), find_transient_parent_fuel windows n t = none →
      ∀ i, i ≤ n → (next_transient_iter windows i t).isSome = true := by
  intro n
  induction n with
  | zero =>
    intro t _ i hi
    interval_cases i
    rfl
  | succ n ih =>
    intro t hfuel i hi
    cases hn : next_transient windows t with
    | none =>
      exfalso
      unfold find_transient_parent_fuel at hfuel
      rw [hn] at hfuel
      simp at hfuel
    | some u =>
      have hfuel' : find_transient_parent_fuel windows n u = none := by
        unfold find_transient_parent_fuel at hfuel
        rw [hn] at hfuel
        exact hfuel
      cases i with
      | zero => rfl
      | succ j =>
        have : next_transient_iter windows (j + 1) t
            = next_transient_iter windows j u := by
          show (next_transient windows t).bind (next_transient_iter windows j) = _
          rw [hn]
          rfl
        rw [this]
        exact ih u hfuel' j (by omega)

theorem iter_isSome_mem_handles (windows : List Window) (i : Nat) (t : Nat)
    (hnext : (next_transient_iter windows (i + 1) t).isSome = true) :
    ∃ u, next_transient_iter windows i t = some u ∧ u ∈ windows.map Window.handle := by
  rw [next_transient_iter_succ] at hnext
  cases hu : next_transient_iter windows i t with
  | none => rw [hu] at hnext; simp at hnext
  | some u =>
    rw [hu] at hnext
    refine ⟨u, rfl, ?_⟩
    have hns : (next_transient windows u).isSome = true := hnext
    unfold next_transient at hns
    cases hfind : windows.find? (fun x => x.handle == u) with
    | none => rw [hfind] at hns; simp at hns
    | some x =>
      have hpx := List.find?_some hfind
      have hmem := List.mem_of_find?_eq_some hfind
      have : x.handle = u := by simpa using hpx
      rw [← this]
      exact List.mem_map_of_mem Window.handle hmem

theorem fuel_terminates (windows : List Window) (t : Nat) (hac : TransientAcyclic windows) :
    (find_transient_parent_fuel windows (windows.length + 1) t).isSome = true := by
  by_contra hcon
  have hnone : find_transient_parent_fuel windows (windows.length + 1) t = none := by
    cases hfu : find_transient_parent_fuel windows (windows.length + 1) t with
    | none => rfl
    | some r => rw [hfu] at hcon; simp at hcon
  have hiter := fuel_none_iter_isSome windows (windows.length + 1) t hnone
  have hmaps : ∀ i ∈ Finset.range (windows.length + 1),
      (next_transient_iter windows i t).getD 0 ∈ (windows.map Window.handle).toFinset := by
    intro i hi
    rw [Finset.mem_range] at hi
    have h1 : (next_transient_iter windows (i + 1) t).isSome = true :=
      hiter (i + 1) (by omega)
    obtain ⟨u, hu, hmem⟩ := iter_isSome_mem_handles windows i t h1
    rw [hu]
    simpa using hmem
  have hcard : (windows.map Window.handle).toFinset.card
      < (Finset.range (windows.length + 1)).card := by
    have h1 : (windows.map Window.handle).toFinset.card ≤ (windows.map Window.handle).length :=
      List.toFinset_card_le _
    rw [List.length_map] at h1
    rw [Finset.card_range]
    omega
  obtain ⟨i, hi, j, hj, hij, hgij⟩ :=
    Finset.exists_ne_map_eq_of_card_lt_of_maps_to hcard hmaps
  rw [Finset.mem_range] at hi hj
  obtain ⟨u, hu⟩ := Option.isSome_iff_exists.mp (hiter i (by omega))
  obtain ⟨v, hv⟩ := Option.isSome_iff_exists.mp (hiter j (by omega))
  rw [hu, hv] at hgij
  simp at hgij
  subst hgij
  have key : ∀ (a b : Nat), a < b → next_transient_iter windows a t = some u →
      next_transient_iter windows b t = some u → False := by
    intro a b hab ha hb
    have hadd := next_transient_iter_add windows a (b - a) t
    rw [show a + (b - a) = b from by omega, ha, hb] at hadd
    have hcyc : next_transient_iter windows (b - a) u = some u := by
      simpa using hadd.symm
    exact hac u (b - a) (by omega) hcyc
  rcases lt_or_gt_of_ne hij with hlt | hgt
  · exact key i j hlt hu hv
  · exact key j i hgt hv hu

theorem fuel_some_chain (windows : List Window) :
    ∀ (n : Nat) (t : Nat) (r : Option Window),
      find_transient_parent_fuel windows n t = some r →
      ∃ last, (∃ k, next_transient_iter windows k t = some last) ∧
        next_transient windows last = none ∧
        r = windows.find? (fun x => x.handle == last) := by
  intro n
  induction n with
  | zero => intro t r h; simp [find_transient_parent_fuel] at h
  | succ n ih =>
    intro t r h
    unfold find_transient_parent_fuel at h
    cases hn : next_transient windows t with
    | none =>
      rw [hn] at h
      exact ⟨t, ⟨0, rfl⟩, hn, (Option.some.inj h).symm⟩
    | some u =>
      rw [hn] at h
      obtain ⟨last, ⟨k, hk⟩, hlast, hr⟩ := ih u r h
      refine ⟨last, ⟨k + 1, ?_⟩, hlast, hr⟩
      show (next_transient windows t).bind _ = _
      rw [hn]
      exact hk

/-- Two windows forming a transient cycle: 1 is transient for 2 and 2 is
transient for 1. -/
def cycle_window_a : Window := { Window.mk_new 1 with transient := some 2 }

def cycle_window_b : Window := { Window.mk_new 2 with transient := some 1 }

def cycle_windows : List Window := [cycle_window_a, cycle_window_b]

theorem cycle_fuel_none :
    ∀ n, find_transient_parent_fuel cycle_windows n 1 = none ∧
      find_transient_parent_fuel cycle_windows n 2 = none := by
  intro n
  induction n with
  | zero => exact ⟨rfl, rfl⟩
  | succ n ih =>
    constructor
    · show find_transient_parent_fuel cycle_windows (n + 1) 1 = none
      unfold find_transient_parent_fuel
      rw [show next_transient cycle_windows 1 = some 2 from by decide]
      exact ih.2
    · show find_transient_parent_fuel cycle_windows (n + 1) 2 = none
      unfold find_transient_parent_fuel
      rw [show next_transient cycle_windows 2 = some 1 from by decide]
      exact ih.1

/-- C5: on every window list whose transient relation is acyclic the chain
walk terminates (fuel `windows.length + 1` suffices for the source's
unbounded loop) and returns the window matching the last handle reached by
following transient links; a starting handle without a window in the list
resolves to none; and on the two-window transient cycle the walk never
terminates: every fuel bound is exhausted. -/
theorem transient_chain_resolution :
    (∀ (windows : List Window) (t : Nat), TransientAcyclic windows →
      ∃ last, (∃ k, next_transient_iter windows k t = some last) ∧
        next_transient windows last = none ∧
        find_transient_parent windows (some t)
          = windows.find? (fun x => x.handle == last)) ∧
    (∀ (windows : List Window) (t : Nat),
      windows.find? (fun x => x.handle == t) = none →
      find_transient_parent windows (some t) = none) ∧
    (∀ n, find_transient_parent_fuel cycle_windows n 1 = none) := by
  refine ⟨?_, ?_, fun n => (cycle_fuel_none n).1⟩
  · intro windows t hac
    have hterm := fuel_terminates windows t hac
    obtain ⟨r, hr⟩ := Option.isSome_iff_exists.mp hterm
    obtain ⟨last, hkchain, hlast, hrfind⟩ := fuel_some_chain windows _ t r hr
    refine ⟨last, hkchain, hlast, ?_⟩
    unfold find_transient_parent
    dsimp only
    rw [hr, hrfind]
    rfl
  · intro windows t hfind
    have hnext : next_transient windows t = none := by
      unfold next_transient
      rw [hfind]
      rfl
    unfold find_transient_parent
    show (find_transient_parent_fuel windows (windows.length + 1) t).getD none = none
    unfold find_transient_parent_fuel
    rw [hnext, hfind]
    rfl

/-- A two-window acyclic chain: 1 is transient for 2, which has no further
transient link. -/
def acyclic_window_a : Window := { Window.mk_new 1 with transient := some 2 }

def acyclic_window_b : Window := Window.mk_new 2

def acyclic_windows : List Window := [acyclic_window_a, acyclic_window_b]

theorem next_acyclic_other (u : Nat) (h1 : u ≠ 1) (h2 : u ≠ 2) :
    next_transient acyclic_windows u = none := by
  have e1 : ((1 : Nat) == u) = false := beq_eq_false_iff_ne.mpr (Ne.symm h1)
  have e2 : ((2 : Nat) == u) = false := beq_eq_false_iff_ne.mpr (Ne.symm h2)
  unfold next_transient acyclic_windows
  rw [List.find?_cons_of_neg _ (by simp [acyclic_window_a, Window.mk_new, e1]),
    List.find?_cons_of_neg _ (by simp [acyclic_window_b, Window.mk_new, e2])]
  rfl

theorem acyclic_windows_acyclic : TransientAcyclic acyclic_windows := by
  intro t k hk hsome
  by_cases h1 : t = 1
  · subst h1
    cases k with
    | zero => exact hk rfl
    | succ k' =>
      have hstep : next_transient_iter acyclic_windows (k' + 1) 1
          = next_transient_iter acyclic_windows k' 2 := by
        show (next_transient acyclic_windows 1).bind _ = _
        rw [show next_transient acyclic_windows 1 = some 2 from by decide]
        rfl
      rw [hstep] at hsome
      cases k' with
      | zero => simp [next_transient_iter] at hsome
      | succ k'' =>
        have hdead : next_transient_iter acyclic_windows (k'' + 1) 2 = none := by
          show (next_transient acyclic_windows 2).bind _ = _
          rw [show next_transient acyclic_windows 2 = none from by decide]
          rfl
        rw [hdead] at hsome
        exact Option.noConfusion hsome
  · by_cases h2 : t = 2
    · subst h2
      cases k with
      | zero => exact hk rfl
      | succ k' =>
        have hdead : next_transient_iter acyclic_windows (k' + 1) 2 = none := by
          show (next_transient acyclic_windows 2).bind _ = _
          rw [show next_transient acyclic_windows 2 = none from by decide]
          rfl
        rw [hdead] at hsome
        exact Option.noConfusion hsome
    · cases k with
      | zero => exact hk rfl
      | succ k' =>
        have hdead : next_transient_iter acyclic_windows (k' + 1) t = none := by
          show (next_transient acyclic_windows t).bind _ = _
          rw [next_acyclic_other t h1 h2]
          rfl
        rw [hdead] at hsome
        exact Option.noConfusion hsome

theorem transient_chain_resolution_witness :
    (∃ last, (∃ k, next_transient_iter acyclic_windows k 1 = some last) ∧
      next_transient acyclic_windows last = none ∧
      find_transient_parent acyclic_windows (some 1)
        = acyclic_windows.find? (fun x => x.handle == last)) ∧
    find_transient_parent acyclic_windows (some 99) = none ∧
    find_transient_parent_fuel cycle_windows 5 1 = none :=
  ⟨transient_chain_resolution.1 acyclic_windows 1 acyclic_windows_acyclic,
   transient_chain_resolution.2.1 acyclic_windows 99 (by decide),
   transient_chain_resolution.2.2 5⟩
